import Mathlib

/-!
Shallow embedding of the stLearn plotting front-end
(`src/stlearn/plotting/classes.py`) and the dataset loader
(`src/stlearn/datasets/datasets.py`), together with theorems settling the
frozen claims about the natural-language specification.

Modelling conventions:
* machine floats of the source are modelled as rationals (`Rat`);
* a matplotlib color is represented by the rational point at which the
  colormap is evaluated (for a fixed palette, `to_hex (cmap x)` is an
  injection on the finitely many points used, so color equality is equality
  of evaluation points);
* side effects (figure saving, HTTP download) are collected in explicit
  effect lists; python exceptions become `Except.error`.
-/

/-- A color, represented by the colormap evaluation point (see module docs). -/
abbrev ColorArg := Rat

/-- Externally visible side effects of the code under study. -/
inductive Effect where
  | fileWrite (fname : String) (dpi : Nat)
  | netDownload (url : String)
deriving DecidableEq

deriving instance DecidableEq for Except

/-! ### Generic list helpers used by the embedding -/

/-- Keep the elements of `xs` at the positions where `mask` is `true`
(in order).  This is numpy/pandas boolean-mask row selection. -/
def maskFilter {α : Type} (mask : List Bool) (xs : List α) : List α :=
  (mask.zip xs).filterMap (fun p => if p.1 then some p.2 else none)

/-- Positions (in increasing order) at which a boolean mask is `true`. -/
def truePos : List Bool → List Nat
  | [] => []
  | b :: m => (if b then [0] else []) ++ (truePos m).map (· + 1)

/-- Embedding of `numpy.min` over a nonempty list (the empty case never arises where the
source calls it; callers guard it). -/
def listMin : List Rat → Rat
  | [] => 0
  | x :: xs => xs.foldl min x

/-- Embedding of `numpy.max` over a nonempty list. -/
def listMax : List Rat → Rat
  | [] => 0
  | x :: xs => xs.foldl max x

/-- Structural `mapM` over `Except` (fails at the first error), used for
python loops in which each iteration may raise. -/
def mapOrErr {α β : Type} (f : α → Except String β) : List α → Except String (List β)
  | [] => .ok []
  | x :: xs =>
    match f x, mapOrErr f xs with
    | .ok y, .ok ys => .ok (y :: ys)
    | .error e, _ => .error e
    | .ok _, .error e => .error e

/-- Success predicate: `P` holds of the result when the computation succeeded (vacuous on error). -/
def allOk {ε α : Type} (P : α → Prop) : Except ε α → Prop
  | .ok a => P a
  | .error _ => True

/-- Replace the value at key `k` in a python-dict association list, or append
the binding when the key is absent (python `d[k] = v`). -/
def setEntry {β : Type} (l : List (String × β)) (k : String) (v : β) : List (String × β) :=
  if l.any (fun p => p.1 == k) then
    l.map (fun p => if p.1 == k then (k, v) else p)
  else l ++ [(k, v)]

/-! ### The data model: the in-memory annotated matrix (`AnnData`)

Only the parts of `AnnData` touched by the two source files are modelled:
observation names, categorical `obs` columns, variable names, the expression
matrix `X` (row = observation, column = variable), `uns` entries holding
color lists, `obsm["spatial"]` and further per-observation `obsm` arrays. -/

/-- A pandas categorical column: per-observation values plus an ordered
category list (`.cat.categories`). -/
structure CatColumn where
  values : List String
  categories : List String
deriving DecidableEq

structure AnnData where
  obs_names : List String
  obs_cols : List (String × CatColumn)
  var_names : List String
  X : List (List Rat)
  uns : List (String × List ColorArg)
  spatial : List (Rat × Rat)
  obsm : List (String × List Rat)
deriving DecidableEq

/-- Embedding of `adata.obs[name]` (`none` when the column is absent). -/
def colOf (ad : AnnData) (name : String) : Option CatColumn :=
  (ad.obs_cols.lookup name)

/-- Well-formedness of an annotated matrix: unique observation and variable
names, every column aligned with the observations and its values drawn from
its categories, and `X`/`spatial` aligned with the observations. -/
def AnnData.wf (ad : AnnData) : Prop :=
  ad.obs_names.Nodup ∧ ad.var_names.Nodup ∧
  (∀ p ∈ ad.obs_cols, p.2.values.length = ad.obs_names.length ∧
    ∀ v ∈ p.2.values, v ∈ p.2.categories) ∧
  ad.X.length = ad.obs_names.length ∧
  ad.spatial.length = ad.obs_names.length

instance (ad : AnnData) : Decidable ad.wf := by
  unfold AnnData.wf; infer_instance

/-- Row subsetting at the given positions, mirroring `adata[names]`: it also
removes the categories that no longer occur in a categorical column
(anndata prunes unused categories on subsetting). -/
def selectRows (ad : AnnData) (pos : List Nat) : AnnData :=
  { obs_names := pos.filterMap ad.obs_names.get?
    obs_cols := ad.obs_cols.map (fun p =>
      let vals := pos.filterMap p.2.values.get?
      (p.1, ⟨vals, p.2.categories.filter (fun c => vals.contains c)⟩))
    var_names := ad.var_names
    X := pos.filterMap ad.X.get?
    uns := ad.uns
    spatial := pos.filterMap ad.spatial.get?
    obsm := ad.obsm.map (fun p => (p.1, pos.filterMap p.2.get?)) }

/-- Embedding of `adata[names]`: select the rows with the given observation names
(pandas `.loc` on a unique index takes, for each name, its first match). -/
def selectByNames (ad : AnnData) (names : List String) : AnnData :=
  selectRows ad (names.filterMap (fun n => ad.obs_names.indexOf? n))

/-- The index (observation names, in row order) returned by
`adata.obs.query("lbl == c1 | lbl == c2 | ...")`: the names of the rows whose
`lbl` value is one of the listed clusters. -/
def obsQuery (names : List String) (vals : List String) (lcs : List String) : List String :=
  ((names.zip vals).filter (fun p => lcs.contains p.2)).map (fun p => p.1)

/-! ### `src/stlearn/datasets/datasets.py` -/

/-- State of the file system as far as `example_bcba` sees it: whether the
dataset directory exists and the content of the cache file
`example_bcba.h5` when present. -/
structure FileSys where
  dirExists : Bool
  cache : Option String
deriving DecidableEq

def bcbaUrl : String :=
  "https://raw.githubusercontent.com/duypham2108/dev_st/master/tutorials/example_bcba_small.h5"

/-- Embedding of `datasets.example_bcba`: make the dataset directory (`exist_ok=True`),
download the file at `bcbaUrl` only when the cache file is missing, then read
and return the cached data.  `remote` is the content served at the URL; the
value returned by `sc.read_h5ad` is modelled as the content of the file it
reads.  Result: (new file system, effects performed, returned data). -/
def example_bcba (remote : String) (fs : FileSys) : FileSys × List Effect × String :=
  let fs1 : FileSys := { fs with dirExists := true }
  match fs1.cache with
  | some c => (fs1, [], c)
  | none => ({ fs1 with cache := some remote }, [Effect.netDownload bcbaUrl], remote)

/-! ### `SpatialBasePlot` (`src/stlearn/plotting/classes.py`, lines 32-184) -/

/-- Modelled from the spec: the `Spatial` base class (`stlearn/classes.py`,
not under `src/`).  Per the spec, the plotting classes "render ... onto
tissue-image coordinates" of "an external in-memory annotated-matrix
object": `Spatial.__init__(adata)` stores the passed `AnnData` by reference
(accessed as `self.adata[0]`) and exposes the tissue-image context — the
coordinate scale factor `self.scale_factor` and the per-spot pixel
coordinate arrays `self.imagecol` / `self.imagerow`.  These context values
are carried here; the stored `AnnData` reference is threaded explicitly
through each constructor embedding. -/
structure SpatialCtx where
  scale_factor : Rat
  imagecol : List Rat
  imagerow : List Rat
deriving DecidableEq

/-- Axes limits state; `none` means the limit was never explicitly set by
the code under study. -/
structure AxState where
  xlim : Option (Rat × Rat)
  ylim : Option (Rat × Rat)
deriving DecidableEq

/-- The initial axes state of a freshly created figure. -/
def freshAx : AxState := ⟨none, none⟩

/-- Embedding of `SpatialBasePlot._crop_image`: set the x-limits to
`(imagecol.min() - margin, imagecol.max() + margin)`, the y-limits to
`(imagerow.min() - margin, imagerow.max() + margin)`, then invert the
y-limits.  `numpy.min`/`numpy.max` raise on an empty array. -/
def crop_image (st : AxState) (ctx : SpatialCtx) (margin : Rat) : Except String AxState :=
  if ctx.imagecol.isEmpty ∨ ctx.imagerow.isEmpty then
    .error "ValueError: zero-size array to reduction operation"
  else
    let st1 : AxState :=
      { st with xlim := some (listMin ctx.imagecol - margin, listMax ctx.imagecol + margin) }
    let st2 : AxState :=
      { st1 with ylim := some (listMin ctx.imagerow - margin, listMax ctx.imagerow + margin) }
    .ok { st2 with ylim := st2.ylim.map (fun p => (p.2, p.1)) }

/-- Embedding of `if crop: self._crop_image(self.ax, margin)` (shared tail of every
concrete plot constructor). -/
def applyCrop (crop : Bool) (ctx : SpatialCtx) (margin : Rat) : Except String AxState :=
  if crop then crop_image freshAx ctx margin else .ok freshAx

/-- Embedding of `if fname != None: self._save_output()` — `SpatialBasePlot._save_output`
saves the figure to `fname` at resolution `dpi`. -/
def saveEffects (fname : Option String) (dpi : Nat) : List Effect :=
  match fname with
  | some f => [Effect.fileWrite f dpi]
  | none => []

/-- Embedding of `SpatialBasePlot._get_query_clusters_index`: for each requested cluster,
its position in the full category list
(`np.where(full_labels == query)[0][0]`; an absent cluster raises
`IndexError`). -/
def get_query_clusters_index (categories : List String) (lcs : List String) :
    Except String (List Nat) :=
  mapOrErr (fun q =>
    match categories.indexOf? q with
    | some i => .ok i
    | none => .error "IndexError: cluster not found in category list") lcs

/-- Embedding of `SpatialBasePlot._select_clusters`: build the pandas query string
`'lbl == "c1" | lbl == "c2" | '[:-2]` over `list_clusters` (empty
`list_clusters` yields the empty expression, which pandas rejects), run it
on `query_adata.obs` and re-index `query_adata` by the resulting index. -/
def select_clusters (q : AnnData) (lbl : String) (lcs : List String) :
    Except String AnnData :=
  match colOf q lbl with
  | none => .error "UndefinedVariableError: column not in obs"
  | some col =>
    if lcs.isEmpty then .error "ValueError: expr cannot be empty"
    else .ok (selectByNames q (obsQuery q.obs_names col.values lcs))

/-- State produced by `SpatialBasePlot.__init__` that later plotting steps
read. -/
structure BaseResult where
  query : AnnData
  use_label : Option String
  list_clusters : Option (List String)
  query_indexes : List Nat
deriving DecidableEq

/-- Embedding of `SpatialBasePlot.__init__` (label/cluster bookkeeping; figure and image
drawing have no effect on any data the claims mention):
`query_adata = adata.copy()`; `list_clusters` without `use_label` is an
assertion error; with `use_label` set the label must be an `obs` column,
`list_clusters` defaults to the full category list, `query_indexes` is
computed against the full category list and the queried clusters are
selected into `query_adata`. -/
def SpatialBasePlot_init (ad : AnnData) (use_label : Option String)
    (list_clusters : Option (List String)) : Except String BaseResult :=
  match use_label with
  | none =>
    match list_clusters with
    | some _ => .error "AssertionError: Please specify use_label parameter!"
    | none => .ok ⟨ad, none, none, []⟩
  | some lbl =>
    match colOf ad lbl with
    | none => .error "AssertionError: Please choose the right label in adata.obs.columns!"
    | some col =>
      let lcs := match list_clusters with
        | none => col.categories
        | some l => l
      match get_query_clusters_index col.categories lcs with
      | .error e => .error e
      | .ok qi =>
        match select_clusters ad lbl lcs with
        | .error e => .error e
        | .ok q => .ok ⟨q, some lbl, some lcs, qi⟩

/-- A bare `SpatialBasePlot` construction: the base constructor stores
`fname` and `dpi` but never calls `_save_output` itself (lines 33-116 contain
no save call), so its effect list is empty and the external `AnnData` is
returned unchanged.  Result: (external adata after construction, base
state, effects). -/
def SpatialBasePlot_full_init (ad : AnnData) (use_label : Option String)
    (list_clusters : Option (List String)) (fname : Option String) (dpi : Nat) :
    Except String (AnnData × BaseResult × List Effect) :=
  match SpatialBasePlot_init ad use_label list_clusters with
  | .error e => .error e
  | .ok b =>
    let _ := (fname, dpi)
    .ok (ad, b, [])

/-! ### `GenePlot` (`src/stlearn/plotting/classes.py`, lines 196-389) -/

/-- The python loop
`for gene in self.gene_symbols: if gene not in var.index: self.gene_symbols.remove(gene); if len(...) == 0: raise`,
with python's exact iteration semantics: the `for` walks an internal index
over the list being mutated, so removing the current element shifts the
following element into the current slot and the iterator skips it.
`fuel` bounds the number of iterations (the index grows by one per step and
the list never grows, so `lst.length` steps from index `0` always suffice);
a removal also emits a warning in the source (not modelled). -/
def geneLoopAux (var : List String) : Nat → List String → Nat → Except String (List String)
  | 0, lst, _ => .ok lst
  | fuel + 1, lst, i =>
    if h : i < lst.length then
      let g := lst.get ⟨i, h⟩
      let lst' := if var.contains g then lst else lst.erase g
      if lst'.length = 0 then
        .error "ValueError: All provided genes are not exist in the data"
      else geneLoopAux var fuel lst' (i + 1)
    else .ok lst

/-- The multi-gene absent-symbol removal loop of `_get_gene_expression`. -/
def prune_genes (var : List String) (genes : List String) : Except String (List String) :=
  geneLoopAux var genes.length genes 0

/-- Embedding of `query_adata[:, [g]].to_df().iloc[:, -1]`: the expression column of gene
`g` (`none` when `g` is not a variable). -/
def geneColumn (ad : AnnData) (g : String) : Option (List Rat) :=
  (ad.var_names.indexOf? g).map (fun j => ad.X.map (fun row => row.getD j 0))

/-- Embedding of `query_adata[:, gs].to_df()`: one row per spot, one column per listed
gene (pandas raises `KeyError` when a requested gene is not a variable). -/
def geneMatrix (ad : AnnData) (gs : List String) : Except String (List (List Rat)) :=
  if gs.all (fun g => ad.var_names.contains g) then
    .ok (ad.X.map (fun row => gs.map (fun g => row.getD ((ad.var_names.indexOf? g).getD 0) 0)))
  else .error "KeyError: gene not in var_names"

/-- Embedding of `(count_gene > 0).sum(axis=1) / n` for one spot row. -/
def fracPos (r : List Rat) (n : Nat) : Rat :=
  ((r.filter (fun x => decide (0 < x))).length : Rat) / (n : Rat)

/-- Embedding of `count_gene.mean(axis=1)` for one spot row. -/
def rowMean (r : List Rat) : Rat := r.sum / (r.length : Rat)

/-- Embedding of `GenePlot._get_gene_expression`: empty gene list raises; a single gene
must be a variable and yields its expression column; two or more genes go
through the removal loop, column selection and the `NaiveMean`/`CumSum`
combination (`cumsum(axis=1).iloc[:, -1]` is the row sum).  In the source a
`None` method raises and any other method name is already excluded by the
constructor assertion, which the final branch records.  Returns the
(possibly pruned) gene list together with the per-spot values. -/
def get_gene_expression (q : AnnData) (genes : List String) (method : String) :
    Except String (List String × List Rat) :=
  if genes.length = 0 then
    .error "ValueError: Genes should be provided, please input genes"
  else if genes.length = 1 then
    let g := genes.headD ""
    if q.var_names.contains g then
      match geneColumn q g with
      | some col => .ok (genes, col)
      | none => .error "unreachable: contains implies indexOf? succeeds"
    else .error "ValueError: gene is not exist in the data, please try another gene"
  else
    match prune_genes q.var_names genes with
    | .error e => .error e
    | .ok gs =>
      match geneMatrix q gs with
      | .error e => .error e
      | .ok mat =>
        if method = "NaiveMean" then
          .ok (gs, mat.map (fun r => rowMean r * fracPos r gs.length))
        else if method = "CumSum" then
          .ok (gs, mat.map (fun r => r.sum))
        else .error "ValueError: Please provide method to combine genes by NaiveMean/CumSum"

/-- Embedding of `GenePlot._add_threshold`: all spots when no threshold is given,
otherwise the spots with value strictly above it. -/
def add_threshold (vals : List Rat) (threshold : Option Rat) : List Bool :=
  match threshold with
  | none => vals.map (fun _ => true)
  | some t => vals.map (fun v => decide (t < v))

/-- The rendered positions shared by `_plot_genes`, `_plot_contour`,
`_plot_clusters` and `_plot_subclusters`:
`obsm["spatial"][:, 0] * scale_factor` and
`obsm["spatial"][:, 1] * scale_factor`. -/
def scaledSpatial (q : AnnData) (scale : Rat) : List (Rat × Rat) :=
  q.spatial.map (fun p => (p.1 * scale, p.2 * scale))

structure GeneResult where
  ext : AnnData
  base : BaseResult
  gene_symbols : List String
  values : List Rat
  plotted_values : List Rat
  points : List (Rat × Rat)
  ax : AxState
  effects : List Effect
deriving DecidableEq

/-- Embedding of `GenePlot.__init__`: run the base constructor, assert the combination
method, compute the gene expression vector, apply the threshold mask, plot
(scatter and contour both place spots at `spatial * scale_factor`; with the
plotted value list empty, `min(gene_values)` resp. `x.min()` raises; with a
threshold filtering a proper subset, the scatter/contour call raises
because the value array is shorter than the position arrays), crop
when requested and save when `fname` is given.  No step writes to the
external `AnnData`, so `ext` is the input. -/
def GenePlot_init (ad : AnnData) (ctx : SpatialCtx) (use_label : Option String)
    (list_clusters : Option (List String)) (crop : Bool) (margin : Rat)
    (fname : Option String) (dpi : Nat) (gene_symbols : List String)
    (threshold : Option Rat) (method : String) (contour : Bool) :
    Except String GeneResult :=
  match SpatialBasePlot_init ad use_label list_clusters with
  | .error e => .error e
  | .ok b =>
    if method = "CumSum" ∨ method = "NaiveMean" then
      match get_gene_expression b.query gene_symbols method with
      | .error e => .error e
      | .ok (gs, vals) =>
        let avail := add_threshold vals threshold
        let pv := maskFilter avail vals
        if pv.isEmpty then .error "ValueError: min() arg is an empty sequence"
        else if pv.length ≠ b.query.spatial.length then
          .error "ValueError: c argument has a different size than x and y"
        else
          let pts := scaledSpatial b.query ctx.scale_factor
          let _ := contour
          match applyCrop crop ctx margin with
          | .error e => .error e
          | .ok ax1 => .ok ⟨ad, b, gs, vals, pv, pts, ax1, saveEffects fname dpi⟩
    else .error "AssertionError: Please choose available method in: [CumSum, NaiveMean]"

/-! ### `ClusterPlot` (`src/stlearn/plotting/classes.py`, lines 399-745) -/

/-- Modelled from the spec: `check_sublist` from `stlearn.plotting.utils`
(not under `src/`): the boolean mask over the full observation index marking
membership in the given sub-index (used to subset `obsm["spatial"]` to one
cluster's spots). -/
def check_sublist (full sub : List String) : List Bool :=
  full.map (fun x => sub.contains x)

/-- Embedding of `ClusterPlot._add_cluster_colors`: reset
`adata.uns[use_label + "_colors"]` to the empty list, then iterate
`adata.obs.groupby(use_label)` over the FULL external data — a pandas
groupby of a categorical column yields one group per category, in category
order — appending `cmap_(i / (cmap_n - 1))` for the i-th group.  This
mutates the external `AnnData`. -/
def add_cluster_colors (ad : AnnData) (lbl : String) (cats : List String)
    (cmap_n : Nat) : AnnData :=
  let colors := (List.range cats.length).map (fun (i : Nat) => (i : Rat) / ((cmap_n : Rat) - 1))
  { ad with uns := setEntry ad.uns (lbl ++ "_colors") colors }

/-- Embedding of `ClusterPlot._plot_clusters`: iterate `query_adata.obs.groupby(use_label)`
(one group per category of the subsetted column, in category order); the
i-th group's spots — `obsm["spatial"]` masked by `check_sublist` against the
group's index — are scattered at `spatial * scale_factor` with color
`cmap_(query_indexes[i] / (cmap_n - 1))`.  Each returned entry is
(cluster name, scatter points, color). -/
def plot_clusters (q : AnnData) (lbl : String) (qi : List Nat) (cmap_n : Nat)
    (scale : Rat) : Except String (List (String × List (Rat × Rat) × ColorArg)) :=
  match colOf q lbl with
  | none => .error "KeyError: use_label not in query obs"
  | some col =>
    mapOrErr (fun i =>
      match qi.get? i, col.categories.get? i with
      | some k, some c =>
        let members := obsQuery q.obs_names col.values [c]
        let pts := (maskFilter (check_sublist q.obs_names members) q.spatial).map
          (fun p => (p.1 * scale, p.2 * scale))
        .ok (c, pts, (k : Rat) / ((cmap_n : Rat) - 1))
      | none, _ => .error "IndexError: query_indexes out of range"
      | some _, none => .error "unreachable: index below category count")
      (List.range col.categories.length)

/-- Embedding of `ClusterPlot._add_cluster_labels` (color bookkeeping; the centroid text
positions are irrelevant to every claim and are not modelled): for the i-th
entry of `list_clusters` a text box is drawn with face color
`adata.uns[use_label + "_colors"][query_indexes[i]]`.  Before the box is
drawn the source computes a centroid; when the subsetted column has two or
more categories it takes the `NearestCentroid` branch, which reads the
undefined name `spatial` and raises `NameError`.  Each returned entry is
(cluster label, face color). -/
def add_cluster_labels (ext : AnnData) (q : AnnData) (lbl : String)
    (lcs : List String) (qi : List Nat) : Except String (List (String × ColorArg)) :=
  match colOf q lbl with
  | none => .error "KeyError: use_label not in query obs"
  | some col =>
    mapOrErr (fun i =>
      if 2 ≤ col.categories.length then
        .error "NameError: name spatial is not defined"
      else
        match lcs.get? i, qi.get? i with
        | some lab, some k =>
          match ext.uns.lookup (lbl ++ "_colors") with
          | none => .error "KeyError: colors not in uns"
          | some colors =>
            match colors.get? k with
            | some c => .ok (lab, c)
            | none => .error "IndexError: color index out of range"
        | _, _ => .error "IndexError: label or query index out of range")
      (List.range lcs.length)

structure ClusterResult where
  ext : AnnData
  base : BaseResult
  scatter : List (String × List (Rat × Rat) × ColorArg)
  label_boxes : List (String × ColorArg)
  ax : AxState
  effects : List Effect
deriving DecidableEq

/-- Embedding of `ClusterPlot.__init__`: run the base constructor (`use_label` must have
been given, else `self.use_label` is unset and `_add_cluster_colors` raises
`AttributeError`), build the colormap (its size `cmap_n` is determined by
the chosen palette in `_get_cmap` and is passed in here), store the cluster
colors on the external `AnnData`, scatter the clusters, optionally draw the
cluster labels, crop and save. -/
def ClusterPlot_init (ad : AnnData) (ctx : SpatialCtx) (use_label : Option String)
    (list_clusters : Option (List String)) (cmap_n : Nat)
    (show_cluster_labels : Bool) (crop : Bool) (margin : Rat)
    (fname : Option String) (dpi : Nat) : Except String ClusterResult :=
  match SpatialBasePlot_init ad use_label list_clusters with
  | .error e => .error e
  | .ok b =>
    match use_label with
    | none => .error "AttributeError: object has no attribute use_label"
    | some lbl =>
      match colOf ad lbl with
      | none => .error "unreachable: base constructor asserted the column"
      | some col =>
        let ext := add_cluster_colors ad lbl col.categories cmap_n
        match plot_clusters b.query lbl b.query_indexes cmap_n ctx.scale_factor with
        | .error e => .error e
        | .ok sc =>
          let lcs := b.list_clusters.getD []
          match (if show_cluster_labels then
                   add_cluster_labels ext b.query lbl lcs b.query_indexes
                 else .ok []) with
          | .error e => .error e
          | .ok boxes =>
            match applyCrop crop ctx margin with
            | .error e => .error e
            | .ok ax1 => .ok ⟨ext, b, sc, boxes, ax1, saveEffects fname dpi⟩

/-! ### `SubClusterPlot` (`src/stlearn/plotting/classes.py`, lines 755-909) -/

structure SubClusterResult where
  ext : AnnData
  base : BaseResult
  points : List (Rat × Rat)
  ax : AxState
  effects : List Effect
deriving DecidableEq

/-- Embedding of `SubClusterPlot.__init__` with `_plot_subclusters`: the observations of
the FULL external data whose `use_label` value equals `str(cluster)` are
selected (`adata[0][subset.index, :]`) and scattered at
`spatial * scale_factor`, colored by their `sub_cluster_labels` value
(the column must exist; colors do not matter to any claim).
`_add_subclusters_label` then raises on an empty subset
(`min` of an empty range while normalizing, and an out-of-range positional
lookup).  Crop and save follow.  Nothing is written to the external
`AnnData`. -/
def SubClusterPlot_init (ad : AnnData) (ctx : SpatialCtx) (use_label : Option String)
    (list_clusters : Option (List String)) (crop : Bool) (margin : Rat)
    (fname : Option String) (dpi : Nat) (cluster : Nat) :
    Except String SubClusterResult :=
  match SpatialBasePlot_init ad use_label list_clusters with
  | .error e => .error e
  | .ok b =>
    match use_label with
    | none => .error "AttributeError: object has no attribute use_label"
    | some lbl =>
      match colOf ad lbl with
      | none => .error "unreachable: base constructor asserted the column"
      | some col =>
        match colOf ad "sub_cluster_labels" with
        | none => .error "KeyError: sub_cluster_labels"
        | some _ =>
          let subNames := obsQuery ad.obs_names col.values [toString cluster]
          if subNames.isEmpty then
            .error "ValueError: empty subset for the requested cluster"
          else
            let sub := selectByNames ad subNames
            let pts := scaledSpatial sub ctx.scale_factor
            match applyCrop crop ctx margin with
            | .error e => .error e
            | .ok ax1 => .ok ⟨ad, b, pts, ax1, saveEffects fname dpi⟩

/-! ### `CciPlot` (`src/stlearn/plotting/classes.py`, lines 919-974) -/

/-- Embedding of `CciPlot.__init__`: a `GenePlot` constructed with
`gene_symbols = use_het` and the inherited default method `"CumSum"` (the
assertion passes), except that the overridden `_get_gene_expression`
returns `query_adata.obsm[use_het]` instead of reading gene columns.
Threshold, plotting, crop and save are the `GenePlot` code paths; the
external `AnnData` is never written. -/
def CciPlot_init (ad : AnnData) (ctx : SpatialCtx) (use_label : Option String)
    (list_clusters : Option (List String)) (crop : Bool) (margin : Rat)
    (fname : Option String) (dpi : Nat) (use_het : String)
    (threshold : Option Rat) : Except String GeneResult :=
  match SpatialBasePlot_init ad use_label list_clusters with
  | .error e => .error e
  | .ok b =>
    match b.query.obsm.lookup use_het with
    | none => .error "KeyError: use_het not in obsm"
    | some vals =>
      let avail := add_threshold vals threshold
      let pv := maskFilter avail vals
      if pv.isEmpty then .error "ValueError: min() arg is an empty sequence"
      else if pv.length ≠ b.query.spatial.length then
        .error "ValueError: c argument has a different size than x and y"
      else
        let pts := scaledSpatial b.query ctx.scale_factor
        match applyCrop crop ctx margin with
        | .error e => .error e
        | .ok ax1 => .ok ⟨ad, b, [use_het], vals, pv, pts, ax1, saveEffects fname dpi⟩

/-! ### Claim-facing helper definitions and concrete test data -/

/-- Whether an `Except` computation succeeded. -/
def exceptOk {ε α : Type} : Except ε α → Bool
  | .ok _ => true
  | .error _ => false

/-- The color the claim about consistent color-mapping assigns to a cluster:
the colormap evaluated at
(index of the cluster in the full category list) / (cmap_n - 1). -/
def claimColor (cats : List String) (cmap_n : Nat) (c : String) : Option ColorArg :=
  (cats.indexOf? c).map (fun k => (k : Rat) / ((cmap_n : Rat) - 1))

/-- The color with which `_plot_clusters` scattered a given cluster. -/
def scatterColor (sc : List (String × List (Rat × Rat) × ColorArg)) (c : String) :
    Option ColorArg :=
  (sc.find? (fun p => p.1 == c)).map (fun p => p.2.2)

/-- The face color of the text box drawn for a given cluster label. -/
def boxColor (boxes : List (String × ColorArg)) (c : String) : Option ColorArg :=
  (boxes.find? (fun p => p.1 == c)).map (fun p => p.2)

/-- The color stored for a cluster in `adata.uns[use_label + "_colors"]`. -/
def unsColor (ad : AnnData) (lbl : String) (cats : List String) (c : String) :
    Option ColorArg :=
  (ad.uns.lookup (lbl ++ "_colors")).bind
    (fun colors => (cats.indexOf? c).bind (fun k => colors.get? k))

/-- A small concrete annotated matrix used by witnesses and counterexamples:
three spots, a categorical column `louvain` with categories `0`, `1`, two
genes, and a heterogeneity score in `obsm`. -/
def exAd : AnnData :=
  ⟨["s1", "s2", "s3"],
   [("louvain", ⟨["0", "1", "0"], ["0", "1"]⟩),
    ("sub_cluster_labels", ⟨["0", "2", "1"], ["0", "1", "2"]⟩)],
   ["GA", "GB"],
   [[1, 2], [3, 4], [5, 6]],
   [],
   [(10, 20), (30, 40), (50, 60)],
   [("het", [1, 2, 3])]⟩

/-- Concrete tissue-image context for the witnesses. -/
def exCtx : SpatialCtx := ⟨2, [10, 30, 50], [20, 40, 60]⟩

/-- The expression of gene `g` at spot `i` as the single-gene code path
reads it (`geneColumn`): used to state the multi-gene aggregation claims
against the per-gene columns. -/
def exprAt (q : AnnData) (g : String) (i : Nat) : Rat :=
  ((geneColumn q g).getD []).getD i 0

/-- Projection of a `ClusterPlot` construction onto its scatter groups
(empty when construction raised). -/
def clusterScatterOf : Except String ClusterResult → List (String × List (Rat × Rat) × ColorArg)
  | .ok r => r.scatter
  | .error _ => []

/-- Projection of a `ClusterPlot` construction onto the external `AnnData`
after construction (`none` when construction raised). -/
def clusterExtOf : Except String ClusterResult → Option AnnData
  | .ok r => some r.ext
  | .error _ => none

/-- Projection of a bare `SpatialBasePlot` construction onto its effect list
(`none` when construction raised). -/
def baseEffectsOf : Except String (AnnData × BaseResult × List Effect) → Option (List Effect)
  | .ok p => some p.2.2
  | .error _ => none

/-- Embedding of the axes-limit effect of a bare `SpatialBasePlot.__init__`
(lines 33-116): the constructor accepts `crop` and `margin` (lines 47-48)
but its body never calls `_crop_image` — cropping happens only in the four
subclass constructors — so whatever the value of the `crop` flag, the fresh
figure's limits are left unset.  Result: (base state, axes state). -/
def SpatialBasePlot_init_ax (ad : AnnData) (use_label : Option String)
    (list_clusters : Option (List String)) (crop : Bool) (margin : Rat) :
    Except String (BaseResult × AxState) :=
  match SpatialBasePlot_init ad use_label list_clusters with
  | .error e => .error e
  | .ok b =>
    let _ := (crop, margin)
    .ok (b, freshAx)

/-- Projection of a bare `SpatialBasePlot` construction onto its axes state
(`none` when construction raised). -/
def baseAxOf : Except String (BaseResult × AxState) → Option AxState
  | .ok p => some p.2
  | .error _ => none

/-! ### List lemmas for the selection machinery -/

theorem maskFilter_nil {α : Type} (xs : List α) : maskFilter [] xs = [] := rfl

theorem maskFilter_nil_right {α : Type} (m : List Bool) : maskFilter m ([] : List α) = [] := by
  cases m <;> rfl

theorem maskFilter_cons {α : Type} (b : Bool) (m : List Bool) (x : α) (xs : List α) :
    maskFilter (b :: m) (x :: xs) = (if b then [x] else []) ++ maskFilter m xs := by
  cases b <;> simp [maskFilter, List.filterMap_cons]

theorem mem_of_mem_maskFilter {α : Type} {m : List Bool} {xs : List α} {y : α}
    (h : y ∈ maskFilter m xs) : y ∈ xs := by
  unfold maskFilter at h
  rcases List.mem_filterMap.1 h with ⟨p, hp, hfy⟩
  cases hb : p.1 with
  | false => rw [hb] at hfy; simp at hfy
  | true =>
    rw [hb] at hfy
    simp only [if_pos, Option.some.injEq] at hfy
    exact hfy ▸ (List.of_mem_zip hp).2

theorem maskFilter_all_true {α : Type} {m : List Bool} {xs : List α}
    (hlen : m.length = xs.length) (h : ∀ b ∈ m, b = true) : maskFilter m xs = xs := by
  induction m generalizing xs with
  | nil => cases xs <;> simp_all [maskFilter]
  | cons b m ih =>
    cases xs with
    | nil => simp at hlen
    | cons x xs =>
      have hb := h b (by simp)
      rw [maskFilter_cons, hb]
      simp only [List.length_cons, Nat.succ.injEq] at hlen
      simp [ih hlen (fun c hc => h c (by simp [hc]))]

theorem obsQuery_eq_maskFilter (names vals lcs : List String) :
    obsQuery names vals lcs = maskFilter (vals.map (fun v => lcs.contains v)) names := by
  induction names generalizing vals with
  | nil => cases vals <;> rfl
  | cons x ns ih =>
    cases vals with
    | nil => rfl
    | cons v vs =>
      rw [List.map_cons, maskFilter_cons]
      show ((( x, v) :: ns.zip vs).filter (fun p => lcs.contains p.2)).map (fun p => p.1) = _
      rw [List.filter_cons]
      by_cases hv : lcs.contains v
      · simp only [hv, if_pos]
        simp [obsQuery] at ih
        simp [ih]
      · simp only [hv]
        simp [obsQuery] at ih
        simp [ih, hv]

theorem filterMap_indexOf?_maskFilter {ns : List String} {m : List Bool}
    (hnd : ns.Nodup) (hlen : m.length = ns.length) :
    (maskFilter m ns).filterMap (fun n => ns.indexOf? n) = truePos m := by
  induction ns generalizing m with
  | nil =>
    cases m with
    | nil => rfl
    | cons b m => simp at hlen
  | cons x ns ih =>
    cases m with
    | nil => simp at hlen
    | cons b m =>
      rw [maskFilter_cons, List.filterMap_append]
      have hx : x ∉ ns := (List.nodup_cons.1 hnd).1
      have hnd' : ns.Nodup := (List.nodup_cons.1 hnd).2
      have hlen' : m.length = ns.length := by simpa using hlen
      have htail : (maskFilter m ns).filterMap (fun n => (x :: ns).indexOf? n)
          = (truePos m).map (· + 1) := by
        have hcongr : ∀ n ∈ maskFilter m ns,
            (x :: ns).indexOf? n = (ns.indexOf? n).map (· + 1) := by
          intro n hn
          have hne : x ≠ n := fun he => hx (he ▸ mem_of_mem_maskFilter hn)
          rw [List.indexOf?_cons]
          simp [hne]
        rw [List.filterMap_congr hcongr]
        rw [← ih hnd' hlen']
        rw [List.map_filterMap]
      rw [htail]
      cases b
      · simp [truePos]
      · simp only [if_pos]
        have hhead : [x].filterMap (fun n => (x :: ns).indexOf? n) = [0] := by
          simp [List.indexOf?_cons]
        rw [hhead]
        simp [truePos]

theorem filterMap_get?_truePos {α : Type} (m : List Bool) (ys : List α) :
    (truePos m).filterMap ys.get? = maskFilter m ys := by
  induction m generalizing ys with
  | nil => simp [truePos, maskFilter]
  | cons b m ih =>
    cases ys with
    | nil =>
      rw [maskFilter_nil_right]
      have hz : ∀ (l : List Nat), l.filterMap (fun i => ([] : List α).get? i) = [] := by
        intro l; simp
      cases b <;>
        simp [truePos, List.filterMap_append, List.filterMap_map, Function.comp_def, hz]
    | cons y ys =>
      rw [maskFilter_cons]
      unfold truePos
      rw [List.filterMap_append, List.filterMap_map]
      have htail : ((truePos m).filterMap ((y :: ys).get? ∘ (· + 1))) = maskFilter m ys := by
        rw [← ih ys]
        rfl
      rw [htail]
      cases b <;> simp

theorem lookup_map_value {α β γ : Type} [BEq α] (k : α) (l : List (α × β)) (F : β → γ) :
    List.lookup k (l.map (fun p => (p.1, F p.2))) = (List.lookup k l).map F := by
  induction l with
  | nil => rfl
  | cons p l ih =>
    simp only [List.map_cons, List.lookup]
    cases k == p.1 <;> simp [ih]

theorem lookup_mem {α β : Type} [BEq α] [LawfulBEq α] {k : α} {l : List (α × β)} {v : β}
    (h : List.lookup k l = some v) : (k, v) ∈ l := by
  induction l with
  | nil => simp [List.lookup] at h
  | cons p l ih =>
    simp only [List.lookup] at h
    cases hk : k == p.1 with
    | false => rw [hk] at h; exact List.mem_cons_of_mem _ (ih h)
    | true =>
      rw [hk] at h
      cases h
      have := eq_of_beq hk
      subst this
      cases p
      exact List.mem_cons_self _ _

theorem indexOf?_isSome_of_mem {α : Type} [BEq α] [LawfulBEq α] {a : α} {l : List α}
    (h : a ∈ l) : ∃ i, l.indexOf? a = some i := by
  cases hio : l.indexOf? a with
  | some i => exact ⟨i, rfl⟩
  | none =>
    exact absurd (List.indexOf?_eq_none_iff.1 hio a h) (by simp)

theorem indexOf?_lt_length {α : Type} [BEq α] {a : α} {l : List α} {i : Nat}
    (h : l.indexOf? a = some i) : i < l.length := by
  induction l generalizing i with
  | nil => simp at h
  | cons x xs ih =>
    rw [List.indexOf?_cons] at h
    by_cases hx : (x == a) = true
    · rw [if_pos hx] at h
      cases h
      simp
    · rw [if_neg hx] at h
      cases hj : xs.indexOf? a with
      | none => rw [hj] at h; simp at h
      | some j =>
        rw [hj] at h
        have hij : Nat.succ j = i := Option.some.inj h
        subst hij
        exact Nat.succ_lt_succ (ih hj)

theorem mapOrErr_eq_map {α β : Type} (f : α → Except String β) (g : α → β) (l : List α)
    (h : ∀ x ∈ l, f x = .ok (g x)) : mapOrErr f l = .ok (l.map g) := by
  induction l with
  | nil => rfl
  | cons x xs ih =>
    unfold mapOrErr
    rw [h x (by simp), ih (fun y hy => h y (by simp [hy]))]
    rfl

theorem get_query_clusters_index_eq (cats lcs : List String)
    (h : ∀ c ∈ lcs, c ∈ cats) :
    get_query_clusters_index cats lcs =
      .ok (lcs.map (fun c => (cats.indexOf? c).getD 0)) := by
  unfold get_query_clusters_index
  apply mapOrErr_eq_map
  intro c hc
  rcases indexOf?_isSome_of_mem (h c hc) with ⟨i, hi⟩
  rw [hi]
  simp

theorem selectByNames_obs_names (ad : AnnData) (vals lcs : List String)
    (hnd : ad.obs_names.Nodup) (hvlen : vals.length = ad.obs_names.length) :
    (selectByNames ad (obsQuery ad.obs_names vals lcs)).obs_names =
      maskFilter (vals.map (fun v => lcs.contains v)) ad.obs_names := by
  unfold selectByNames selectRows
  rw [obsQuery_eq_maskFilter,
    filterMap_indexOf?_maskFilter hnd (by simp [hvlen]), filterMap_get?_truePos]

theorem selectByNames_X (ad : AnnData) (vals lcs : List String)
    (hnd : ad.obs_names.Nodup) (hvlen : vals.length = ad.obs_names.length) :
    (selectByNames ad (obsQuery ad.obs_names vals lcs)).X =
      maskFilter (vals.map (fun v => lcs.contains v)) ad.X := by
  unfold selectByNames selectRows
  rw [obsQuery_eq_maskFilter, filterMap_indexOf?_maskFilter hnd (by simp [hvlen])]
  exact filterMap_get?_truePos (vals.map (fun v => lcs.contains v)) ad.X

theorem selectByNames_spatial (ad : AnnData) (vals lcs : List String)
    (hnd : ad.obs_names.Nodup) (hvlen : vals.length = ad.obs_names.length) :
    (selectByNames ad (obsQuery ad.obs_names vals lcs)).spatial =
      maskFilter (vals.map (fun v => lcs.contains v)) ad.spatial := by
  unfold selectByNames selectRows
  rw [obsQuery_eq_maskFilter, filterMap_indexOf?_maskFilter hnd (by simp [hvlen])]
  exact filterMap_get?_truePos (vals.map (fun v => lcs.contains v)) ad.spatial

theorem selectByNames_col (ad : AnnData) (vals lcs : List String)
    (hnd : ad.obs_names.Nodup) (hvlen : vals.length = ad.obs_names.length)
    (cname : String) (ccol : CatColumn) (hc : colOf ad cname = some ccol) :
    colOf (selectByNames ad (obsQuery ad.obs_names vals lcs)) cname =
      some ⟨maskFilter (vals.map (fun v => lcs.contains v)) ccol.values,
        ccol.categories.filter (fun c =>
          (maskFilter (vals.map (fun v => lcs.contains v)) ccol.values).contains c)⟩ := by
  unfold selectByNames selectRows colOf
  rw [obsQuery_eq_maskFilter, filterMap_indexOf?_maskFilter hnd (by simp [hvlen])]
  have hmap := lookup_map_value cname ad.obs_cols (fun c : CatColumn =>
    (⟨(truePos (vals.map (fun v => lcs.contains v))).filterMap c.values.get?,
      c.categories.filter (fun x =>
        ((truePos (vals.map (fun v => lcs.contains v))).filterMap c.values.get?).contains x)⟩
      : CatColumn))
  unfold colOf at hc
  rw [show (List.lookup cname (ad.obs_cols.map (fun p =>
      (p.1, (⟨(truePos (vals.map (fun v => lcs.contains v))).filterMap p.2.values.get?,
        p.2.categories.filter (fun x =>
          ((truePos (vals.map (fun v => lcs.contains v))).filterMap p.2.values.get?).contains x)⟩
        : CatColumn))))) = some (⟨(truePos (vals.map (fun v => lcs.contains v))).filterMap
          ccol.values.get?,
        ccol.categories.filter (fun x =>
          ((truePos (vals.map (fun v => lcs.contains v))).filterMap
            ccol.values.get?).contains x)⟩ : CatColumn)
    from by rw [hmap, hc]; rfl]
  rw [filterMap_get?_truePos]

theorem contains_of_mem {α : Type} [BEq α] [LawfulBEq α] {a : α} {l : List α}
    (h : a ∈ l) : l.contains a = true := by
  simpa using h

theorem SpatialBasePlot_init_ok (ad : AnnData) (lbl : String) (col : CatColumn)
    (lcs : List String) (hcol : colOf ad lbl = some col)
    (hsub : ∀ c ∈ lcs, c ∈ col.categories) (hne : lcs ≠ []) :
    SpatialBasePlot_init ad (some lbl) (some lcs) =
      .ok ⟨selectByNames ad (obsQuery ad.obs_names col.values lcs), some lbl, some lcs,
        lcs.map (fun c => (col.categories.indexOf? c).getD 0)⟩ := by
  have hqi := get_query_clusters_index_eq col.categories lcs hsub
  have hio : lcs.isEmpty = false := by
    cases lcs with
    | nil => simp at hne
    | cons c cs => rfl
  simp only [SpatialBasePlot_init, hcol, hqi, select_clusters, hio, Bool.false_eq_true,
    if_false]

theorem SpatialBasePlot_init_default_ok (ad : AnnData) (lbl : String) (col : CatColumn)
    (hcol : colOf ad lbl = some col) (hcatne : col.categories ≠ []) :
    SpatialBasePlot_init ad (some lbl) none =
      .ok ⟨selectByNames ad (obsQuery ad.obs_names col.values col.categories), some lbl,
        some col.categories,
        col.categories.map (fun c => (col.categories.indexOf? c).getD 0)⟩ := by
  have hqi := get_query_clusters_index_eq col.categories col.categories (fun c hc => hc)
  have hio : col.categories.isEmpty = false := by
    cases hcc : col.categories with
    | nil => exact absurd hcc hcatne
    | cons c cs => rfl
  simp only [SpatialBasePlot_init, hcol, hqi, select_clusters, hio, Bool.false_eq_true,
    if_false]

/-- C2: for every plot constructed with `use_label` set, `query_adata`
consists of exactly those observations of the input whose `use_label` value
is one of the clusters in `list_clusters`, in their original order; when
`list_clusters` is `None` it defaults to the full category list and every
observation is kept. -/
theorem C2_query_selection (ad : AnnData) (lbl : String) (col : CatColumn)
    (lcs : List String) (hwf : ad.wf) (hcol : colOf ad lbl = some col)
    (hsub : ∀ c ∈ lcs, c ∈ col.categories) (hne : lcs ≠ []) :
    (∃ b, SpatialBasePlot_init ad (some lbl) (some lcs) = .ok b ∧
      b.list_clusters = some lcs ∧
      b.query.obs_names =
        maskFilter (col.values.map (fun v => lcs.contains v)) ad.obs_names ∧
      b.query.X = maskFilter (col.values.map (fun v => lcs.contains v)) ad.X ∧
      b.query.spatial =
        maskFilter (col.values.map (fun v => lcs.contains v)) ad.spatial ∧
      (∃ qcol, colOf b.query lbl = some qcol ∧
        qcol.values = maskFilter (col.values.map (fun v => lcs.contains v)) col.values)) ∧
    (col.categories ≠ [] →
      ∃ b, SpatialBasePlot_init ad (some lbl) none = .ok b ∧
        b.list_clusters = some col.categories ∧
        b.query.obs_names = ad.obs_names ∧ b.query.X = ad.X ∧
        b.query.spatial = ad.spatial) := by
  obtain ⟨hnd, -, hcols, hX, hsp⟩ := hwf
  have hmem := lookup_mem hcol
  have hvlen : col.values.length = ad.obs_names.length := (hcols _ hmem).1
  constructor
  · refine ⟨_, SpatialBasePlot_init_ok ad lbl col lcs hcol hsub hne, rfl, ?_, ?_, ?_, ?_⟩
    · exact selectByNames_obs_names ad col.values lcs hnd hvlen
    · exact selectByNames_X ad col.values lcs hnd hvlen
    · exact selectByNames_spatial ad col.values lcs hnd hvlen
    · exact ⟨_, selectByNames_col ad col.values lcs hnd hvlen lbl col hcol, rfl⟩
  · intro hcatne
    refine ⟨_, SpatialBasePlot_init_default_ok ad lbl col hcol hcatne, rfl, ?_, ?_, ?_⟩
    · rw [selectByNames_obs_names ad col.values col.categories hnd hvlen]
      refine maskFilter_all_true (by simp [hvlen]) ?_
      intro b hb
      rcases List.mem_map.1 hb with ⟨v, hv, hvb⟩
      rw [← hvb]
      exact contains_of_mem ((hcols _ hmem).2 v hv)
    · rw [selectByNames_X ad col.values col.categories hnd hvlen]
      refine maskFilter_all_true (by simp [hvlen, hX]) ?_
      intro b hb
      rcases List.mem_map.1 hb with ⟨v, hv, hvb⟩
      rw [← hvb]
      exact contains_of_mem ((hcols _ hmem).2 v hv)
    · rw [selectByNames_spatial ad col.values col.categories hnd hvlen]
      refine maskFilter_all_true (by simp [hvlen, hsp]) ?_
      intro b hb
      rcases List.mem_map.1 hb with ⟨v, hv, hvb⟩
      rw [← hvb]
      exact contains_of_mem ((hcols _ hmem).2 v hv)

/-- Witness for C2 at a concrete input: selecting cluster `1` keeps exactly
the observation `s2`, and the default keeps all three observations. -/
theorem C2_query_selection_witness :
    (∃ b, SpatialBasePlot_init exAd (some "louvain") (some ["1"]) = .ok b ∧
      b.list_clusters = some ["1"] ∧
      b.query.obs_names =
        maskFilter (["0", "1", "0"].map (fun v => ["1"].contains v)) exAd.obs_names ∧
      b.query.X = maskFilter (["0", "1", "0"].map (fun v => ["1"].contains v)) exAd.X ∧
      b.query.spatial =
        maskFilter (["0", "1", "0"].map (fun v => ["1"].contains v)) exAd.spatial ∧
      (∃ qcol, colOf b.query "louvain" = some qcol ∧
        qcol.values =
          maskFilter (["0", "1", "0"].map (fun v => ["1"].contains v)) ["0", "1", "0"])) ∧
    (["0", "1"] ≠ ([] : List String) →
      ∃ b, SpatialBasePlot_init exAd (some "louvain") none = .ok b ∧
        b.list_clusters = some ["0", "1"] ∧
        b.query.obs_names = exAd.obs_names ∧ b.query.X = exAd.X ∧
        b.query.spatial = exAd.spatial) :=
  C2_query_selection exAd "louvain" ⟨["0", "1", "0"], ["0", "1"]⟩ ["1"]
    (by decide) (by decide) (by decide) (by decide)

/-- C3: `example_bcba` creates the dataset directory, downloads only when
the cache file is missing (leaving an existing cache untouched), returns the
data read from the cache file, and a second consecutive call downloads
nothing and returns the same data. -/
theorem C3_download_cache (remote : String) (fs : FileSys) :
    (example_bcba remote fs).1.dirExists = true ∧
    (∀ c, fs.cache = some c →
      (example_bcba remote fs).2.1 = [] ∧
      (example_bcba remote fs).1.cache = some c ∧
      (example_bcba remote fs).2.2 = c) ∧
    (fs.cache = none →
      (example_bcba remote fs).2.1 = [Effect.netDownload bcbaUrl] ∧
      (example_bcba remote fs).1.cache = some remote ∧
      (example_bcba remote fs).2.2 = remote) ∧
    (example_bcba remote (example_bcba remote fs).1).2.1 = [] ∧
    (example_bcba remote (example_bcba remote fs).1).2.2 = (example_bcba remote fs).2.2 ∧
    (example_bcba remote (example_bcba remote fs).1).1 = (example_bcba remote fs).1 := by
  rcases fs with ⟨d, c⟩
  cases c <;> simp [example_bcba]

/-- Witness for C3 at a concrete input: an empty file system, then the
cached second call. -/
theorem C3_download_cache_witness :
    (example_bcba "bcba-data" ⟨false, none⟩).1.dirExists = true ∧
    (∀ c, (⟨false, none⟩ : FileSys).cache = some c →
      (example_bcba "bcba-data" ⟨false, none⟩).2.1 = [] ∧
      (example_bcba "bcba-data" ⟨false, none⟩).1.cache = some c ∧
      (example_bcba "bcba-data" ⟨false, none⟩).2.2 = c) ∧
    ((⟨false, none⟩ : FileSys).cache = none →
      (example_bcba "bcba-data" ⟨false, none⟩).2.1 = [Effect.netDownload bcbaUrl] ∧
      (example_bcba "bcba-data" ⟨false, none⟩).1.cache = some "bcba-data" ∧
      (example_bcba "bcba-data" ⟨false, none⟩).2.2 = "bcba-data") ∧
    (example_bcba "bcba-data" (example_bcba "bcba-data" ⟨false, none⟩).1).2.1 = [] ∧
    (example_bcba "bcba-data" (example_bcba "bcba-data" ⟨false, none⟩).1).2.2 =
      (example_bcba "bcba-data" ⟨false, none⟩).2.2 ∧
    (example_bcba "bcba-data" (example_bcba "bcba-data" ⟨false, none⟩).1).1 =
      (example_bcba "bcba-data" ⟨false, none⟩).1 :=
  C3_download_cache "bcba-data" ⟨false, none⟩

/-! ### C4: the absent-gene removal loop -/

theorem geneLoopAux_all_present (var : List String) (fuel : Nat) :
    ∀ (lst : List String) (i : Nat), (∀ g ∈ lst, var.contains g = true) →
      geneLoopAux var fuel lst i = .ok lst := by
  induction fuel with
  | zero => intro lst i _; rfl
  | succ fuel ih =>
    intro lst i h
    unfold geneLoopAux
    by_cases hi : i < lst.length
    · rw [dif_pos hi]
      have hg := h (lst.get ⟨i, hi⟩) (lst.get_mem _ _)
      have hne : ¬(lst.length = 0) := by omega
      simp only [hg, ite_true, hne, ite_false]
      exact ih lst (i + 1) h
    · rw [dif_neg hi]

/-- C4 (code bug): with the gene list `["GX", "GY"]`, neither of which is a
variable of the data, removing `"GX"` shifts `"GY"` into the current loop
slot and the iterator skips it, so `"GY"` is never removed (and never
warned about); the subsequent column selection then raises `KeyError`
instead of computing values from the remaining present genes.  The
empty-list and single-absent-gene `ValueError` branches of the claim do
hold. -/
theorem C4_gene_validation_bug :
    prune_genes exAd.var_names ["GX", "GY"] = .ok ["GY"] ∧
    exAd.var_names.contains "GY" = false ∧
    get_gene_expression exAd ["GX", "GY"] "CumSum" =
      .error "KeyError: gene not in var_names" ∧
    get_gene_expression exAd [] "CumSum" =
      .error "ValueError: Genes should be provided, please input genes" ∧
    get_gene_expression exAd ["GX"] "CumSum" =
      .error "ValueError: gene is not exist in the data, please try another gene" := by
  decide

/-! ### C5: multi-gene aggregation -/

theorem prune_genes_all_present (var genes : List String)
    (h : ∀ g ∈ genes, g ∈ var) : prune_genes var genes = .ok genes :=
  geneLoopAux_all_present var genes.length genes 0
    (fun g hg => contains_of_mem (h g hg))

theorem geneMatrix_all_present (q : AnnData) (genes : List String)
    (h : ∀ g ∈ genes, g ∈ q.var_names) :
    geneMatrix q genes = .ok (q.X.map (fun row =>
      genes.map (fun g => row.getD ((q.var_names.indexOf? g).getD 0) 0))) := by
  unfold geneMatrix
  have hall : genes.all (fun g => q.var_names.contains g) = true := by
    rw [List.all_eq_true]
    exact fun g hg => contains_of_mem (h g hg)
  rw [hall]
  rfl

theorem exprAt_eq_row (q : AnnData) (g : String) (i : Nat)
    (hg : g ∈ q.var_names) (row : List Rat) (hrow : q.X.get? i = some row) :
    exprAt q g i = row.getD ((q.var_names.indexOf? g).getD 0) 0 := by
  rcases indexOf?_isSome_of_mem hg with ⟨j, hj⟩
  unfold exprAt geneColumn
  rw [hj]
  show ((some (q.X.map (fun r => r.getD j 0))).getD []).getD i 0 = _
  rw [Option.getD_some]
  rw [List.getD_eq_getElem?_getD]
  rw [show (q.X.map (fun r => r.getD j 0))[i]? = some (row.getD j 0) from by
    rw [List.getElem?_map, ← List.get?_eq_getElem?, hrow]; rfl]
  rfl

theorem get_gene_expression_multi (q : AnnData) (genes : List String)
    (hlen : 2 ≤ genes.length) (hpres : ∀ g ∈ genes, g ∈ q.var_names)
    (method : String) :
    get_gene_expression q genes method =
      (if method = "NaiveMean" then
        .ok (genes, (q.X.map (fun row =>
          genes.map (fun g => row.getD ((q.var_names.indexOf? g).getD 0) 0))).map
            (fun r => rowMean r * fracPos r genes.length))
      else if method = "CumSum" then
        .ok (genes, (q.X.map (fun row =>
          genes.map (fun g => row.getD ((q.var_names.indexOf? g).getD 0) 0))).map
            (fun r => r.sum))
      else .error "ValueError: Please provide method to combine genes by NaiveMean/CumSum") := by
  have h0 : ¬(genes.length = 0) := by omega
  have h1 : ¬(genes.length = 1) := by omega
  unfold get_gene_expression
  rw [if_neg h0, if_neg h1, prune_genes_all_present q.var_names genes hpres]
  simp only [geneMatrix_all_present q genes hpres]

/-- C5: for two or more present genes, `"CumSum"` gives each spot the sum of
its expression values over the listed genes, `"NaiveMean"` gives the mean of
those values times the fraction of listed genes strictly positive at the
spot, and any other method name makes the `GenePlot` constructor fail its
assertion. -/
theorem C5_multi_gene_aggregation (q : AnnData) (genes : List String)
    (hlen : 2 ≤ genes.length) (hpres : ∀ g ∈ genes, g ∈ q.var_names) :
    (∃ vals, get_gene_expression q genes "CumSum" = .ok (genes, vals) ∧
      vals.length = q.X.length ∧
      ∀ i, i < q.X.length →
        vals.get? i = some ((genes.map (fun g => exprAt q g i)).sum)) ∧
    (∃ vals, get_gene_expression q genes "NaiveMean" = .ok (genes, vals) ∧
      vals.length = q.X.length ∧
      ∀ i, i < q.X.length →
        vals.get? i = some
          (((genes.map (fun g => exprAt q g i)).sum / (genes.length : Rat)) *
          ((((genes.map (fun g => exprAt q g i)).filter
              (fun x => decide (0 < x))).length : Rat) / (genes.length : Rat)))) ∧
    (∀ m, m ≠ "CumSum" → m ≠ "NaiveMean" →
      ∀ (ad : AnnData) (ctx : SpatialCtx) (ul : Option String)
        (lcs : Option (List String)) (crop : Bool) (margin : Rat)
        (fname : Option String) (dpi : Nat) (gs : List String)
        (th : Option Rat) (ct : Bool),
        exceptOk (GenePlot_init ad ctx ul lcs crop margin fname dpi gs th m ct) = false) := by
  refine ⟨?_, ?_, ?_⟩
  · rw [get_gene_expression_multi q genes hlen hpres "CumSum"]
    rw [if_neg (by decide : ¬("CumSum" = "NaiveMean")), if_pos rfl]
    refine ⟨_, rfl, by simp, ?_⟩
    intro i hi
    rw [List.get?_eq_getElem?, List.getElem?_map, List.getElem?_map,
      ← List.get?_eq_getElem?]
    have hrow : q.X.get? i = some (q.X.get ⟨i, hi⟩) := List.get?_eq_get hi
    rw [hrow]
    have hmapeq : genes.map (fun g => exprAt q g i) =
        genes.map (fun g => (q.X.get ⟨i, hi⟩).getD ((q.var_names.indexOf? g).getD 0) 0) :=
      List.map_congr_left (fun g hg => exprAt_eq_row q g i (hpres g hg) _ hrow)
    rw [hmapeq]
    rfl
  · rw [get_gene_expression_multi q genes hlen hpres "NaiveMean"]
    rw [if_pos rfl]
    refine ⟨_, rfl, by simp, ?_⟩
    intro i hi
    rw [List.get?_eq_getElem?, List.getElem?_map, List.getElem?_map,
      ← List.get?_eq_getElem?]
    have hrow : q.X.get? i = some (q.X.get ⟨i, hi⟩) := List.get?_eq_get hi
    rw [hrow]
    have hmapeq : genes.map (fun g => exprAt q g i) =
        genes.map (fun g => (q.X.get ⟨i, hi⟩).getD ((q.var_names.indexOf? g).getD 0) 0) :=
      List.map_congr_left (fun g hg => exprAt_eq_row q g i (hpres g hg) _ hrow)
    rw [hmapeq]
    show some _ = some _
    rw [Option.some.injEq]
    unfold rowMean fracPos
    simp only [List.length_map]
  · intro m hm1 hm2 ad ctx ul lcs crop margin fname dpi gs th ct
    unfold GenePlot_init
    cases SpatialBasePlot_init ad ul lcs with
    | error e => rfl
    | ok b =>
      show exceptOk (if m = "CumSum" ∨ m = "NaiveMean" then _ else _) = false
      rw [if_neg (fun h => h.elim hm1 hm2)]
      rfl

/-- Witness for C5 at a concrete input: the two genes of `exAd`. -/
theorem C5_multi_gene_aggregation_witness :
    (∃ vals, get_gene_expression exAd ["GA", "GB"] "CumSum" = .ok (["GA", "GB"], vals) ∧
      vals.length = exAd.X.length ∧
      ∀ i, i < exAd.X.length →
        vals.get? i = some ((["GA", "GB"].map (fun g => exprAt exAd g i)).sum)) ∧
    (∃ vals, get_gene_expression exAd ["GA", "GB"] "NaiveMean" =
        .ok (["GA", "GB"], vals) ∧
      vals.length = exAd.X.length ∧
      ∀ i, i < exAd.X.length →
        vals.get? i = some
          (((["GA", "GB"].map (fun g => exprAt exAd g i)).sum / (2 : Rat)) *
          ((((["GA", "GB"].map (fun g => exprAt exAd g i)).filter
              (fun x => decide (0 < x))).length : Rat) / (2 : Rat)))) ∧
    (∀ m, m ≠ "CumSum" → m ≠ "NaiveMean" →
      ∀ (ad : AnnData) (ctx : SpatialCtx) (ul : Option String)
        (lcs : Option (List String)) (crop : Bool) (margin : Rat)
        (fname : Option String) (dpi : Nat) (gs : List String)
        (th : Option Rat) (ct : Bool),
        exceptOk (GenePlot_init ad ctx ul lcs crop margin fname dpi gs th m ct) = false) :=
  C5_multi_gene_aggregation exAd ["GA", "GB"] (by decide) (by decide)

/-! ### C6: consistent color-mapping -/

/-- C6 counterexample: with categories `["0", "1"]` and
`list_clusters = ["1", "0"]` (a valid selection, merely not in category
order), `_plot_clusters` pairs the i-th group of the query (category order)
with `query_indexes[i]` (user order): cluster `"0"` is scattered with the
colormap evaluated at `1 / (cmap_n - 1)`, not at its own category index
`0 / (cmap_n - 1)` as the claim states. -/
theorem C6_color_counterexample :
    scatterColor (clusterScatterOf (ClusterPlot_init exAd exCtx (some "louvain")
        (some ["1", "0"]) 2 false false 100 none 120)) "0" =
      some (((1 : Nat) : Rat) / (((2 : Nat) : Rat) - 1)) ∧
    claimColor ["0", "1"] 2 "0" = some (((0 : Nat) : Rat) / (((2 : Nat) : Rat) - 1)) ∧
    ((1 : Nat) : Rat) / (((2 : Nat) : Rat) - 1) ≠
      ((0 : Nat) : Rat) / (((2 : Nat) : Rat) - 1) := by
  refine ⟨rfl, rfl, by norm_num⟩

theorem maskFilter_map_self {α : Type} (f : α → Bool) (xs : List α) :
    maskFilter (xs.map f) xs = xs.filter f := by
  induction xs with
  | nil => rfl
  | cons x xs ih =>
    rw [List.map_cons, maskFilter_cons, List.filter_cons]
    cases hf : f x <;> simp [ih]

theorem lookup_map_overwrite_of_any {β : Type} (l : List (String × β)) (k : String) (v : β)
    (h : l.any (fun p => p.1 == k) = true) :
    List.lookup k (l.map (fun p => if p.1 == k then (k, v) else p)) = some v := by
  induction l with
  | nil => simp at h
  | cons p l ih =>
    rw [List.map_cons]
    by_cases hp : (p.1 == k) = true
    · rw [if_pos hp]
      simp [List.lookup]
    · rw [if_neg hp]
      have hp' : (p.1 == k) = false := by
        cases hpk : p.1 == k with
        | false => rfl
        | true => exact absurd hpk hp
      have hk : (k == p.1) = false := by
        rw [beq_eq_false_iff_ne] at hp' ⊢
        exact fun he => hp' he.symm
      simp only [List.lookup, hk]
      rw [List.any_cons, hp', Bool.false_or] at h
      exact ih h

theorem lookup_none_of_not_any {β : Type} (l : List (String × β)) (k : String)
    (h : l.any (fun p => p.1 == k) = false) : List.lookup k l = none := by
  induction l with
  | nil => rfl
  | cons p l ih =>
    rw [List.any_cons] at h
    rcases Bool.or_eq_false_iff.1 h with ⟨hp, hl⟩
    have hk : (k == p.1) = false := by
      rw [beq_eq_false_iff_ne] at hp ⊢
      exact fun he => hp he.symm
    simp only [List.lookup, hk]
    exact ih hl

theorem lookup_append_right {β : Type} (l1 l2 : List (String × β)) (k : String)
    (h : List.lookup k l1 = none) : List.lookup k (l1 ++ l2) = List.lookup k l2 := by
  induction l1 with
  | nil => rfl
  | cons p l ih =>
    simp only [List.lookup, List.cons_append] at h ⊢
    cases hk : k == p.1 with
    | true => rw [hk] at h; simp at h
    | false => rw [hk] at h; exact ih h

theorem lookup_setEntry {β : Type} (l : List (String × β)) (k : String) (v : β) :
    List.lookup k (setEntry l k v) = some v := by
  unfold setEntry
  by_cases h : l.any (fun p => p.1 == k) = true
  · rw [if_pos h]
    exact lookup_map_overwrite_of_any l k v h
  · rw [if_neg h]
    rw [lookup_append_right l [(k, v)] k
      (lookup_none_of_not_any l k (Bool.not_eq_true _ ▸ Bool.of_not_eq_true h))]
    simp [List.lookup]

theorem lookup_setEntry_ne {β : Type} (l : List (String × β)) (k k' : String) (v : β)
    (hne : k' ≠ k) : List.lookup k' (setEntry l k v) = List.lookup k' l := by
  unfold setEntry
  by_cases h : l.any (fun p => p.1 == k) = true
  · rw [if_pos h]
    clear h
    induction l with
    | nil => rfl
    | cons p l ih =>
      rw [List.map_cons]
      by_cases hp : (p.1 == k) = true
      · rw [if_pos hp]
        have hpk := eq_of_beq hp
        have h1 : (k' == k) = false := beq_eq_false_iff_ne.2 hne
        have h2 : (k' == p.1) = false := beq_eq_false_iff_ne.2 (hpk ▸ hne)
        simp only [List.lookup, h1, h2]
        exact ih
      · rw [if_neg hp]
        cases hk2 : (k' == p.1) with
        | true => simp only [List.lookup, hk2]
        | false =>
          simp only [List.lookup, hk2]
          exact ih
  · rw [if_neg h]
    induction l with
    | nil =>
      simp only [List.nil_append, List.lookup, beq_eq_false_iff_ne.2 hne]
    | cons p l ih =>
      rw [List.any_cons] at h
      have h' : ¬(l.any (fun p => p.1 == k) = true) := fun hl => h (by simp [hl])
      simp only [List.cons_append, List.lookup]
      cases hk2 : (k' == p.1) with
      | true => simp only [hk2]
      | false =>
        simp only [hk2]
        exact ih h'

theorem applyCrop_ok (crop : Bool) (ctx : SpatialCtx) (margin : Rat)
    (hic : ctx.imagecol ≠ []) (hir : ctx.imagerow ≠ []) :
    ∃ ax, applyCrop crop ctx margin = .ok ax := by
  cases crop with
  | false => exact ⟨freshAx, rfl⟩
  | true =>
    have h1 : ctx.imagecol.isEmpty = false := by
      cases hc : ctx.imagecol with
      | nil => exact absurd hc hic
      | cons a l => rfl
    have h2 : ctx.imagerow.isEmpty = false := by
      cases hc : ctx.imagerow with
      | nil => exact absurd hc hir
      | cons a l => rfl
    unfold applyCrop
    rw [if_pos rfl]
    unfold crop_image
    rw [if_neg (by simp [h1, h2])]
    exact ⟨_, rfl⟩

theorem mem_of_contains {α : Type} [BEq α] [LawfulBEq α] {a : α} {l : List α}
    (h : l.contains a = true) : a ∈ l := by
  simpa using h

theorem CatColumn_values_mk (v c : List String) : (CatColumn.mk v c).values = v := rfl

theorem CatColumn_categories_mk (v c : List String) : (CatColumn.mk v c).categories = c := rfl

theorem unsColor_eq (ad : AnnData) (lbl : String) (cats : List String) (c : String)
    (colors : List ColorArg) (k : Nat)
    (hl : List.lookup (lbl ++ "_colors") ad.uns = some colors)
    (hk : cats.indexOf? c = some k) (hg : colors.get? k = some (colors.getD k 0)) :
    unsColor ad lbl cats c = some (colors.getD k 0) := by
  unfold unsColor
  rw [hl, hk]
  show colors.get? k = _
  exact hg

theorem scatterColor_map_range (n : Nat) (name : Nat → String)
    (pts : Nat → List (Rat × Rat)) (colorv : Nat → ColorArg)
    (c : String) (X : Option ColorArg)
    (hval : ∀ i, i < n → name i = c → some (colorv i) = X)
    (hex : ∃ i, i < n ∧ name i = c) :
    scatterColor ((List.range n).map (fun i => (name i, pts i, colorv i))) c = X := by
  unfold scatterColor
  cases hf : ((List.range n).map (fun i => (name i, pts i, colorv i))).find?
      (fun p => p.1 == c) with
  | none =>
    exfalso
    rcases hex with ⟨i, hi, hni⟩
    have hmem2 : (name i, pts i, colorv i) ∈
        (List.range n).map (fun i => (name i, pts i, colorv i)) :=
      List.mem_map.2 ⟨i, List.mem_range.2 hi, rfl⟩
    apply List.find?_eq_none.1 hf _ hmem2
    show (name i == c) = true
    rw [hni]
    exact beq_self_eq_true c
  | some e =>
    have hpe0 := List.find?_some hf
    have hpe : e.1 = c := eq_of_beq hpe0
    have hmeme := List.mem_of_find?_eq_some hf
    rcases List.mem_map.1 hmeme with ⟨i, hirange, hei⟩
    rw [Option.map_some']
    rw [← hei] at hpe ⊢
    exact hval i (List.mem_range.1 hirange) hpe

theorem boxColor_map_range (n : Nat) (name : Nat → String) (colorv : Nat → ColorArg)
    (c : String) (X : Option ColorArg)
    (hval : ∀ i, i < n → name i = c → some (colorv i) = X)
    (hex : ∃ i, i < n ∧ name i = c) :
    boxColor ((List.range n).map (fun i => (name i, colorv i))) c = X := by
  unfold boxColor
  cases hf : ((List.range n).map (fun i => (name i, colorv i))).find?
      (fun p => p.1 == c) with
  | none =>
    exfalso
    rcases hex with ⟨i, hi, hni⟩
    have hmem2 : (name i, colorv i) ∈ (List.range n).map (fun i => (name i, colorv i)) :=
      List.mem_map.2 ⟨i, List.mem_range.2 hi, rfl⟩
    apply List.find?_eq_none.1 hf _ hmem2
    show (name i == c) = true
    rw [hni]
    exact beq_self_eq_true c
  | some e =>
    have hpe0 := List.find?_some hf
    have hpe : e.1 = c := eq_of_beq hpe0
    have hmeme := List.mem_of_find?_eq_some hf
    rcases List.mem_map.1 hmeme with ⟨i, hirange, hei⟩
    rw [Option.map_some']
    rw [← hei] at hpe ⊢
    exact hval i (List.mem_range.1 hirange) hpe

/-- C6 (amended): `uns[use_label + "_colors"]` always stores, for the i-th
category, the colormap evaluated at `i / (cmap_n - 1)`, and every drawn
cluster-label box uses the `uns` color of its cluster, so all three colors
agree — provided `list_clusters` lists the selected clusters in category
order (as the default full list does) and each selected cluster occurs in
the data.  The counterexample shows the scatter color breaks for a
`list_clusters` not in category order.  (Drawing cluster labels with two or
more selected clusters raises `NameError` in the source, so label boxes are
only drawn for fewer than two.) -/
theorem C6_color_consistency (ad : AnnData) (ctx : SpatialCtx) (lbl : String)
    (col : CatColumn) (lcs : List String) (cmap_n : Nat) (slb crop : Bool)
    (margin : Rat) (fname : Option String) (dpi : Nat)
    (hwf : ad.wf) (hcol : colOf ad lbl = some col)
    (hord : lcs = col.categories.filter (fun c => lcs.contains c))
    (hpres : ∀ c ∈ lcs, c ∈ col.values)
    (hne : lcs ≠ [])
    (hslb : slb = true → lcs.length < 2)
    (hic : ctx.imagecol ≠ []) (hir : ctx.imagerow ≠ []) :
    ∃ r, ClusterPlot_init ad ctx (some lbl) (some lcs) cmap_n slb crop margin fname dpi
        = .ok r ∧
      ∀ c ∈ lcs,
        scatterColor r.scatter c = claimColor col.categories cmap_n c ∧
        unsColor r.ext lbl col.categories c = claimColor col.categories cmap_n c ∧
        (slb = true → boxColor r.label_boxes c = claimColor col.categories cmap_n c) := by
  have hsub : ∀ c ∈ lcs, c ∈ col.categories := by
    intro c hc
    rw [hord] at hc
    exact (List.mem_filter.1 hc).1
  obtain ⟨hnd, -, hcols, -, -⟩ := hwf
  have hmem := lookup_mem hcol
  have hvlen : col.values.length = ad.obs_names.length := (hcols _ hmem).1
  have hbase := SpatialBasePlot_init_ok ad lbl col lcs hcol hsub hne
  have hqcol := selectByNames_col ad col.values lcs hnd hvlen lbl col hcol
  have hqvals : maskFilter (col.values.map (fun v => lcs.contains v)) col.values
      = col.values.filter (fun v => lcs.contains v) := maskFilter_map_self _ _
  have hpruned : col.categories.filter (fun c =>
      (col.values.filter (fun v => lcs.contains v)).contains c) = lcs := by
    conv_rhs => rw [hord]
    apply List.filter_congr
    intro c _
    cases hlc : lcs.contains c with
    | true =>
      have hcv : c ∈ col.values := hpres c (mem_of_contains hlc)
      exact contains_of_mem (List.mem_filter.2 ⟨hcv, hlc⟩)
    | false =>
      cases hfc : (col.values.filter (fun v => lcs.contains v)).contains c with
      | false => rfl
      | true =>
        have hmf := (List.mem_filter.1 (mem_of_contains hfc)).2
        rw [hlc] at hmf
        exact absurd hmf (by simp)
  have hqcol2 : colOf (selectByNames ad (obsQuery ad.obs_names col.values lcs)) lbl =
      some ⟨col.values.filter (fun v => lcs.contains v), lcs⟩ := by
    rw [hqcol, hqvals, hpruned]
  have hget : ∀ i, i < lcs.length → lcs.get? i = some (lcs.getD i "") := by
    intro i hi
    rw [List.get?_eq_get hi, List.getD_eq_get lcs "" hi]
  have hqi_get : ∀ i, i < lcs.length →
      (lcs.map (fun c => (col.categories.indexOf? c).getD 0)).get? i =
        some ((col.categories.indexOf? (lcs.getD i "")).getD 0) := by
    intro i hi
    rw [List.get?_eq_getElem?, List.getElem?_map, ← List.get?_eq_getElem?, hget i hi]
    rfl
  have hgetD_mem : ∀ i, i < lcs.length → lcs.getD i "" ∈ lcs := by
    intro i hi
    rw [List.getD_eq_get lcs "" hi]
    exact lcs.get_mem i hi
  have hclaim : ∀ c ∈ lcs, ∀ k, col.categories.indexOf? c = some k →
      claimColor col.categories cmap_n c = some ((k : Rat) / ((cmap_n : Rat) - 1)) := by
    intro c _ k hk
    unfold claimColor
    rw [hk]
    rfl
  have hcval : ∀ i, i < lcs.length → ∀ c, lcs.getD i "" = c → c ∈ lcs →
      some ((((col.categories.indexOf? (lcs.getD i "")).getD 0 : Nat) : Rat) /
        ((cmap_n : Rat) - 1)) = claimColor col.categories cmap_n c := by
    intro i hi c hc hcl
    rw [hc]
    rcases indexOf?_isSome_of_mem (hsub c hcl) with ⟨k, hk⟩
    rw [hclaim c hcl k hk, hk]
    rfl
  have hlookup_colors : List.lookup (lbl ++ "_colors")
      (add_cluster_colors ad lbl col.categories cmap_n).uns =
      some ((List.range col.categories.length).map
        (fun (i : Nat) => (i : Rat) / ((cmap_n : Rat) - 1))) := by
    show List.lookup (lbl ++ "_colors") (setEntry ad.uns (lbl ++ "_colors") _) = _
    rw [lookup_setEntry]
  have hcolors_get : ∀ k, k < col.categories.length →
      ((List.range col.categories.length).map
        (fun (i : Nat) => (i : Rat) / ((cmap_n : Rat) - 1))).get? k =
        some ((k : Rat) / ((cmap_n : Rat) - 1)) := by
    intro k hk
    rw [List.get?_eq_getElem?, List.getElem?_map, List.getElem?_range hk]
    rfl
  have huns : ∀ c ∈ lcs,
      unsColor (add_cluster_colors ad lbl col.categories cmap_n) lbl col.categories c =
        claimColor col.categories cmap_n c := by
    intro c hc
    rcases indexOf?_isSome_of_mem (hsub c hc) with ⟨k, hk⟩
    unfold unsColor
    rw [hlookup_colors, hk]
    show ((List.range col.categories.length).map
      (fun (i : Nat) => (i : Rat) / ((cmap_n : Rat) - 1))).get? k = _
    rw [hcolors_get k (indexOf?_lt_length hk), hclaim c hc k hk]
  have hplot : plot_clusters (selectByNames ad (obsQuery ad.obs_names col.values lcs)) lbl
      (lcs.map (fun c => (col.categories.indexOf? c).getD 0)) cmap_n ctx.scale_factor =
      .ok ((List.range lcs.length).map (fun i =>
        (lcs.getD i "",
         (maskFilter (check_sublist
             (selectByNames ad (obsQuery ad.obs_names col.values lcs)).obs_names
             (obsQuery (selectByNames ad (obsQuery ad.obs_names col.values lcs)).obs_names
               (col.values.filter (fun v => lcs.contains v)) [lcs.getD i ""]))
           (selectByNames ad (obsQuery ad.obs_names col.values lcs)).spatial).map
             (fun p => (p.1 * ctx.scale_factor, p.2 * ctx.scale_factor)),
         (((col.categories.indexOf? (lcs.getD i "")).getD 0 : Nat) : Rat) /
           ((cmap_n : Rat) - 1)))) := by
    unfold plot_clusters
    rw [hqcol2]
    simp only [CatColumn_categories_mk, CatColumn_values_mk]
    apply mapOrErr_eq_map
    intro i hi
    have hilt := List.mem_range.1 hi
    rw [hqi_get i hilt, hget i hilt]
  have hsc : ∀ c ∈ lcs, scatterColor ((List.range lcs.length).map (fun i =>
      (lcs.getD i "",
       (maskFilter (check_sublist
           (selectByNames ad (obsQuery ad.obs_names col.values lcs)).obs_names
           (obsQuery (selectByNames ad (obsQuery ad.obs_names col.values lcs)).obs_names
             (col.values.filter (fun v => lcs.contains v)) [lcs.getD i ""]))
         (selectByNames ad (obsQuery ad.obs_names col.values lcs)).spatial).map
           (fun p => (p.1 * ctx.scale_factor, p.2 * ctx.scale_factor)),
       (((col.categories.indexOf? (lcs.getD i "")).getD 0 : Nat) : Rat) /
         ((cmap_n : Rat) - 1)))) c = claimColor col.categories cmap_n c := by
    intro c hc
    rcases List.mem_iff_get.1 hc with ⟨⟨i, hilt⟩, hgi⟩
    exact scatterColor_map_range lcs.length (fun i => lcs.getD i "")
      (fun i => (maskFilter (check_sublist
           (selectByNames ad (obsQuery ad.obs_names col.values lcs)).obs_names
           (obsQuery (selectByNames ad (obsQuery ad.obs_names col.values lcs)).obs_names
             (col.values.filter (fun v => lcs.contains v)) [lcs.getD i ""]))
         (selectByNames ad (obsQuery ad.obs_names col.values lcs)).spatial).map
           (fun p => (p.1 * ctx.scale_factor, p.2 * ctx.scale_factor)))
      (fun i => (((col.categories.indexOf? (lcs.getD i "")).getD 0 : Nat) : Rat) /
         ((cmap_n : Rat) - 1))
      c (claimColor col.categories cmap_n c)
      (fun j hj hnj => hcval j hj c hnj hc)
      ⟨i, hilt, by show lcs.getD i "" = c; rw [List.getD_eq_get lcs "" hilt, hgi]⟩
  obtain ⟨ax, hax⟩ := applyCrop_ok crop ctx margin hic hir
  cases slb with
  | false =>
    refine ⟨⟨add_cluster_colors ad lbl col.categories cmap_n,
        ⟨selectByNames ad (obsQuery ad.obs_names col.values lcs), some lbl, some lcs,
          lcs.map (fun c => (col.categories.indexOf? c).getD 0)⟩,
        (List.range lcs.length).map (fun i =>
          (lcs.getD i "",
           (maskFilter (check_sublist
               (selectByNames ad (obsQuery ad.obs_names col.values lcs)).obs_names
               (obsQuery (selectByNames ad (obsQuery ad.obs_names col.values lcs)).obs_names
                 (col.values.filter (fun v => lcs.contains v)) [lcs.getD i ""]))
             (selectByNames ad (obsQuery ad.obs_names col.values lcs)).spatial).map
               (fun p => (p.1 * ctx.scale_factor, p.2 * ctx.scale_factor)),
           (((col.categories.indexOf? (lcs.getD i "")).getD 0 : Nat) : Rat) /
             ((cmap_n : Rat) - 1))), [], ax, saveEffects fname dpi⟩, ?_, ?_⟩
    · unfold ClusterPlot_init
      rw [hbase]
      show (match colOf ad lbl with
        | none => (Except.error "unreachable: base constructor asserted the column" :
            Except String ClusterResult)
        | some col2 =>
          match plot_clusters (selectByNames ad (obsQuery ad.obs_names col.values lcs)) lbl
              (lcs.map (fun c => (col.categories.indexOf? c).getD 0)) cmap_n
              ctx.scale_factor with
          | .error e => Except.error e
          | .ok sc =>
            match (Except.ok [] : Except String (List (String × ColorArg))) with
            | .error e => Except.error e
            | .ok boxes =>
              match applyCrop crop ctx margin with
              | .error e => Except.error e
              | .ok ax1 =>
                Except.ok ⟨add_cluster_colors ad lbl col2.categories cmap_n,
                  ⟨selectByNames ad (obsQuery ad.obs_names col.values lcs), some lbl,
                    some lcs, lcs.map (fun c => (col.categories.indexOf? c).getD 0)⟩,
                  sc, boxes, ax1, saveEffects fname dpi⟩) = _
      rw [hcol, hplot, hax]
    · intro c hc
      exact ⟨hsc c hc, huns c hc, fun h => absurd h (by simp)⟩
  | true =>
    have hlen1 := hslb rfl
    have hboxes : add_cluster_labels (add_cluster_colors ad lbl col.categories cmap_n)
        (selectByNames ad (obsQuery ad.obs_names col.values lcs)) lbl lcs
        (lcs.map (fun c => (col.categories.indexOf? c).getD 0)) =
        .ok ((List.range lcs.length).map (fun i => (lcs.getD i "",
          (((col.categories.indexOf? (lcs.getD i "")).getD 0 : Nat) : Rat) /
            ((cmap_n : Rat) - 1)))) := by
      unfold add_cluster_labels
      rw [hqcol2]
      simp only [CatColumn_categories_mk, CatColumn_values_mk]
      apply mapOrErr_eq_map
      intro i hi
      have hilt := List.mem_range.1 hi
      rw [if_neg (by omega : ¬(2 ≤ lcs.length))]
      rw [hget i hilt, hqi_get i hilt]
      rcases indexOf?_isSome_of_mem (hsub _ (hgetD_mem i hilt)) with ⟨k, hk⟩
      rw [hk, hlookup_colors]
      show (match ((List.range col.categories.length).map
          (fun (j : Nat) => (j : Rat) / ((cmap_n : Rat) - 1))).get? ((some k).getD 0) with
        | some c2 => (Except.ok (lcs.getD i "", c2) : Except String (String × ColorArg))
        | none => Except.error "IndexError: color index out of range") = _
      rw [show ((some k).getD 0 : Nat) = k from rfl,
        hcolors_get k (indexOf?_lt_length hk)]
    have hbc : ∀ c ∈ lcs, boxColor ((List.range lcs.length).map (fun i => (lcs.getD i "",
        (((col.categories.indexOf? (lcs.getD i "")).getD 0 : Nat) : Rat) /
          ((cmap_n : Rat) - 1)))) c = claimColor col.categories cmap_n c := by
      intro c hc
      rcases List.mem_iff_get.1 hc with ⟨⟨i, hilt⟩, hgi⟩
      exact boxColor_map_range lcs.length (fun i => lcs.getD i "")
        (fun i => (((col.categories.indexOf? (lcs.getD i "")).getD 0 : Nat) : Rat) /
          ((cmap_n : Rat) - 1))
        c (claimColor col.categories cmap_n c)
        (fun j hj hnj => hcval j hj c hnj hc)
        ⟨i, hilt, by show lcs.getD i "" = c; rw [List.getD_eq_get lcs "" hilt, hgi]⟩
    refine ⟨⟨add_cluster_colors ad lbl col.categories cmap_n,
        ⟨selectByNames ad (obsQuery ad.obs_names col.values lcs), some lbl, some lcs,
          lcs.map (fun c => (col.categories.indexOf? c).getD 0)⟩,
        (List.range lcs.length).map (fun i =>
          (lcs.getD i "",
           (maskFilter (check_sublist
               (selectByNames ad (obsQuery ad.obs_names col.values lcs)).obs_names
               (obsQuery (selectByNames ad (obsQuery ad.obs_names col.values lcs)).obs_names
                 (col.values.filter (fun v => lcs.contains v)) [lcs.getD i ""]))
             (selectByNames ad (obsQuery ad.obs_names col.values lcs)).spatial).map
               (fun p => (p.1 * ctx.scale_factor, p.2 * ctx.scale_factor)),
           (((col.categories.indexOf? (lcs.getD i "")).getD 0 : Nat) : Rat) /
             ((cmap_n : Rat) - 1))),
        (List.range lcs.length).map (fun i => (lcs.getD i "",
          (((col.categories.indexOf? (lcs.getD i "")).getD 0 : Nat) : Rat) /
            ((cmap_n : Rat) - 1))), ax, saveEffects fname dpi⟩, ?_, ?_⟩
    · unfold ClusterPlot_init
      rw [hbase]
      show (match colOf ad lbl with
        | none => (Except.error "unreachable: base constructor asserted the column" :
            Except String ClusterResult)
        | some col2 =>
          match plot_clusters (selectByNames ad (obsQuery ad.obs_names col.values lcs)) lbl
              (lcs.map (fun c => (col.categories.indexOf? c).getD 0)) cmap_n
              ctx.scale_factor with
          | .error e => Except.error e
          | .ok sc =>
            match add_cluster_labels (add_cluster_colors ad lbl col2.categories cmap_n)
                (selectByNames ad (obsQuery ad.obs_names col.values lcs)) lbl lcs
                (lcs.map (fun c => (col.categories.indexOf? c).getD 0)) with
            | .error e => Except.error e
            | .ok boxes =>
              match applyCrop crop ctx margin with
              | .error e => Except.error e
              | .ok ax1 =>
                Except.ok ⟨add_cluster_colors ad lbl col2.categories cmap_n,
                  ⟨selectByNames ad (obsQuery ad.obs_names col.values lcs), some lbl,
                    some lcs, lcs.map (fun c => (col.categories.indexOf? c).getD 0)⟩,
                  sc, boxes, ax1, saveEffects fname dpi⟩) = _
      rw [hcol]
      show (match plot_clusters (selectByNames ad (obsQuery ad.obs_names col.values lcs)) lbl
            (lcs.map (fun c => (col.categories.indexOf? c).getD 0)) cmap_n
            ctx.scale_factor with
        | .error e => (Except.error e : Except String ClusterResult)
        | .ok sc =>
          match add_cluster_labels (add_cluster_colors ad lbl col.categories cmap_n)
              (selectByNames ad (obsQuery ad.obs_names col.values lcs)) lbl lcs
              (lcs.map (fun c => (col.categories.indexOf? c).getD 0)) with
          | .error e => Except.error e
          | .ok boxes =>
            match applyCrop crop ctx margin with
            | .error e => Except.error e
            | .ok ax1 =>
              Except.ok ⟨add_cluster_colors ad lbl col.categories cmap_n,
                ⟨selectByNames ad (obsQuery ad.obs_names col.values lcs), some lbl,
                  some lcs, lcs.map (fun c => (col.categories.indexOf? c).getD 0)⟩,
                sc, boxes, ax1, saveEffects fname dpi⟩) = _
      rw [hplot, hboxes, hax]
    · intro c hc
      exact ⟨hsc c hc, huns c hc, fun _ => hbc c hc⟩

/-- Witness for C6 at a concrete input: the default-ordered full cluster
list of `exAd`. -/
theorem C6_color_consistency_witness :
    ∃ r, ClusterPlot_init exAd exCtx (some "louvain") (some ["0", "1"]) 2 false true 100
        none 120 = .ok r ∧
      ∀ c ∈ ["0", "1"],
        scatterColor r.scatter c = claimColor ["0", "1"] 2 c ∧
        unsColor r.ext "louvain" ["0", "1"] c = claimColor ["0", "1"] 2 c ∧
        (false = true → boxColor r.label_boxes c = claimColor ["0", "1"] 2 c) :=
  C6_color_consistency exAd exCtx "louvain" ⟨["0", "1", "0"], ["0", "1"]⟩ ["0", "1"] 2
    false true 100 none 120 (by decide) (by decide) (by decide) (by decide) (by decide)
    (by decide) (by decide) (by decide)

/-! ### Shape lemmas: frame facts about each constructor -/

theorem GenePlot_shape (ad : AnnData) (ctx : SpatialCtx) (ul : Option String)
    (lcs : Option (List String)) (crop : Bool) (margin : Rat) (fname : Option String)
    (dpi : Nat) (genes : List String) (th : Option Rat) (method : String) (ct : Bool) :
    allOk (fun r => r.ext = ad ∧ r.effects = saveEffects fname dpi ∧
      applyCrop crop ctx margin = .ok r.ax ∧
      SpatialBasePlot_init ad ul lcs = .ok r.base ∧
      r.points = scaledSpatial r.base.query ctx.scale_factor)
      (GenePlot_init ad ctx ul lcs crop margin fname dpi genes th method ct) := by
  unfold GenePlot_init
  cases hb : SpatialBasePlot_init ad ul lcs with
  | error e => trivial
  | ok b =>
    show allOk _ (if method = "CumSum" ∨ method = "NaiveMean" then _ else _)
    by_cases hm : method = "CumSum" ∨ method = "NaiveMean"
    · rw [if_pos hm]
      cases hge : get_gene_expression b.query genes method with
      | error e => trivial
      | ok p =>
        obtain ⟨gs, vals⟩ := p
        show allOk _ (if (maskFilter (add_threshold vals th) vals).isEmpty = true then
          Except.error "ValueError: min() arg is an empty sequence"
          else if (maskFilter (add_threshold vals th) vals).length ≠
              b.query.spatial.length then
            Except.error "ValueError: c argument has a different size than x and y"
          else match applyCrop crop ctx margin with
            | .error e => Except.error e
            | .ok ax1 => Except.ok ⟨ad, b, gs, vals,
                maskFilter (add_threshold vals th) vals,
                scaledSpatial b.query ctx.scale_factor, ax1, saveEffects fname dpi⟩)
        cases hpv : (maskFilter (add_threshold vals th) vals).isEmpty with
        | true =>
          rw [if_pos rfl]
          trivial
        | false =>
          rw [if_neg (by simp)]
          by_cases hsz : (maskFilter (add_threshold vals th) vals).length ≠
              b.query.spatial.length
          · rw [if_pos hsz]
            trivial
          · rw [if_neg hsz]
            cases hax : applyCrop crop ctx margin with
            | error e => trivial
            | ok ax1 => exact ⟨rfl, rfl, rfl, rfl, rfl⟩
    · rw [if_neg hm]
      trivial

theorem CciPlot_shape (ad : AnnData) (ctx : SpatialCtx) (ul : Option String)
    (lcs : Option (List String)) (crop : Bool) (margin : Rat) (fname : Option String)
    (dpi : Nat) (use_het : String) (th : Option Rat) :
    allOk (fun r => r.ext = ad ∧ r.effects = saveEffects fname dpi ∧
      applyCrop crop ctx margin = .ok r.ax ∧
      SpatialBasePlot_init ad ul lcs = .ok r.base ∧
      r.points = scaledSpatial r.base.query ctx.scale_factor)
      (CciPlot_init ad ctx ul lcs crop margin fname dpi use_het th) := by
  unfold CciPlot_init
  cases hb : SpatialBasePlot_init ad ul lcs with
  | error e => trivial
  | ok b =>
    show allOk _ (match List.lookup use_het b.query.obsm with
      | none => _
      | some vals => _)
    cases hv : List.lookup use_het b.query.obsm with
    | none => trivial
    | some vals =>
      show allOk _ (if (maskFilter (add_threshold vals th) vals).isEmpty = true then
        Except.error "ValueError: min() arg is an empty sequence"
        else if (maskFilter (add_threshold vals th) vals).length ≠
            b.query.spatial.length then
          Except.error "ValueError: c argument has a different size than x and y"
        else match applyCrop crop ctx margin with
          | .error e => Except.error e
          | .ok ax1 => Except.ok ⟨ad, b, [use_het], vals,
              maskFilter (add_threshold vals th) vals,
              scaledSpatial b.query ctx.scale_factor, ax1, saveEffects fname dpi⟩)
      cases hpv : (maskFilter (add_threshold vals th) vals).isEmpty with
      | true =>
        rw [if_pos rfl]
        trivial
      | false =>
        rw [if_neg (by simp)]
        by_cases hsz : (maskFilter (add_threshold vals th) vals).length ≠
            b.query.spatial.length
        · rw [if_pos hsz]
          trivial
        · rw [if_neg hsz]
          cases hax : applyCrop crop ctx margin with
          | error e => trivial
          | ok ax1 => exact ⟨rfl, rfl, rfl, rfl, rfl⟩

theorem ClusterPlot_shape (ad : AnnData) (ctx : SpatialCtx) (ul : Option String)
    (lcs : Option (List String)) (cmap_n : Nat) (slb crop : Bool) (margin : Rat)
    (fname : Option String) (dpi : Nat) :
    allOk (fun r => r.effects = saveEffects fname dpi ∧
      applyCrop crop ctx margin = .ok r.ax ∧
      SpatialBasePlot_init ad ul lcs = .ok r.base ∧
      ∃ lbl col, ul = some lbl ∧ colOf ad lbl = some col ∧
        r.ext = add_cluster_colors ad lbl col.categories cmap_n ∧
        plot_clusters r.base.query lbl r.base.query_indexes cmap_n ctx.scale_factor
          = .ok r.scatter)
      (ClusterPlot_init ad ctx ul lcs cmap_n slb crop margin fname dpi) := by
  unfold ClusterPlot_init
  cases hb : SpatialBasePlot_init ad ul lcs with
  | error e => trivial
  | ok b =>
    show allOk _ (match ul with
      | none => _
      | some lbl => _)
    cases ul with
    | none => trivial
    | some lbl =>
      show allOk _ (match colOf ad lbl with
        | none => _
        | some col => _)
      cases hcol2 : colOf ad lbl with
      | none => trivial
      | some col =>
        show allOk _ (match plot_clusters b.query lbl b.query_indexes cmap_n
            ctx.scale_factor with
          | .error e => _
          | .ok sc => _)
        cases hpl : plot_clusters b.query lbl b.query_indexes cmap_n ctx.scale_factor with
        | error e => trivial
        | ok sc =>
          show allOk _ (match (if slb then
              add_cluster_labels (add_cluster_colors ad lbl col.categories cmap_n)
                b.query lbl (b.list_clusters.getD []) b.query_indexes
            else .ok []) with
            | .error e => _
            | .ok boxes => _)
          cases hbox : (if slb then
              add_cluster_labels (add_cluster_colors ad lbl col.categories cmap_n)
                b.query lbl (b.list_clusters.getD []) b.query_indexes
            else .ok []) with
          | error e => trivial
          | ok boxes =>
            show allOk _ (match applyCrop crop ctx margin with
              | .error e => _
              | .ok ax1 => _)
            cases hax : applyCrop crop ctx margin with
            | error e => trivial
            | ok ax1 => exact ⟨rfl, rfl, rfl, lbl, col, rfl, hcol2, rfl, hpl⟩

theorem SubClusterPlot_shape (ad : AnnData) (ctx : SpatialCtx) (ul : Option String)
    (lcs : Option (List String)) (crop : Bool) (margin : Rat) (fname : Option String)
    (dpi : Nat) (cluster : Nat) :
    allOk (fun r => r.ext = ad ∧ r.effects = saveEffects fname dpi ∧
      applyCrop crop ctx margin = .ok r.ax ∧
      SpatialBasePlot_init ad ul lcs = .ok r.base ∧
      ∃ lbl col, ul = some lbl ∧ colOf ad lbl = some col ∧
        r.points = scaledSpatial (selectByNames ad
          (obsQuery ad.obs_names col.values [toString cluster])) ctx.scale_factor)
      (SubClusterPlot_init ad ctx ul lcs crop margin fname dpi cluster) := by
  unfold SubClusterPlot_init
  cases hb : SpatialBasePlot_init ad ul lcs with
  | error e => trivial
  | ok b =>
    show allOk _ (match ul with
      | none => _
      | some lbl => _)
    cases ul with
    | none => trivial
    | some lbl =>
      show allOk _ (match colOf ad lbl with
        | none => _
        | some col => _)
      cases hcol2 : colOf ad lbl with
      | none => trivial
      | some col =>
        show allOk _ (match colOf ad "sub_cluster_labels" with
          | none => _
          | some scol => _)
        cases hsc : colOf ad "sub_cluster_labels" with
        | none => trivial
        | some scol =>
          show allOk _ (if (obsQuery ad.obs_names col.values [toString cluster]).isEmpty
              = true then
            Except.error "ValueError: empty subset for the requested cluster"
            else match applyCrop crop ctx margin with
              | .error e => Except.error e
              | .ok ax1 => Except.ok ⟨ad, b,
                  scaledSpatial (selectByNames ad
                    (obsQuery ad.obs_names col.values [toString cluster]))
                    ctx.scale_factor, ax1, saveEffects fname dpi⟩)
          cases hem : (obsQuery ad.obs_names col.values [toString cluster]).isEmpty with
          | true =>
            rw [if_pos rfl]
            trivial
          | false =>
            rw [if_neg (by simp)]
            cases hax : applyCrop crop ctx margin with
            | error e => trivial
            | ok ax1 => exact ⟨rfl, rfl, rfl, rfl, lbl, col, rfl, hcol2, rfl⟩

theorem SpatialBasePlot_full_shape (ad : AnnData) (ul : Option String)
    (lcs : Option (List String)) (fname : Option String) (dpi : Nat) :
    allOk (fun p => p.1 = ad ∧ p.2.2 = [] ∧ SpatialBasePlot_init ad ul lcs = .ok p.2.1)
      (SpatialBasePlot_full_init ad ul lcs fname dpi) := by
  unfold SpatialBasePlot_full_init
  cases hb : SpatialBasePlot_init ad ul lcs with
  | error e => trivial
  | ok b => exact ⟨rfl, rfl, rfl⟩

/-! ### Support lemmas for the crop and position claims -/

theorem allOk_mono {ε α : Type} {P Q : α → Prop} (h : ∀ a, P a → Q a) :
    ∀ e : Except ε α, allOk P e → allOk Q e := by
  intro e
  cases e with
  | error e => intro _; trivial
  | ok a => exact h a

theorem foldl_min_spec (xs : List Rat) : ∀ x : Rat,
    (xs.foldl min x ∈ x :: xs) ∧ xs.foldl min x ≤ x ∧ ∀ z ∈ xs, xs.foldl min x ≤ z := by
  induction xs with
  | nil => intro x; exact ⟨by simp, le_refl x, by simp⟩
  | cons y ys ih =>
    intro x
    obtain ⟨hmem, hle, hall⟩ := ih (min x y)
    refine ⟨?_, ?_, ?_⟩
    · show ys.foldl min (min x y) ∈ x :: y :: ys
      rcases List.mem_cons.1 hmem with h | h
      · rcases min_choice x y with hm | hm <;> rw [h, hm] <;> simp
      · simp [List.mem_cons_of_mem, h]
    · exact le_trans hle (min_le_left x y)
    · intro z hz
      rcases List.mem_cons.1 hz with h | h
      · rw [h]
        exact le_trans hle (min_le_right x y)
      · exact hall z h

theorem foldl_max_spec (xs : List Rat) : ∀ x : Rat,
    (xs.foldl max x ∈ x :: xs) ∧ x ≤ xs.foldl max x ∧ ∀ z ∈ xs, z ≤ xs.foldl max x := by
  induction xs with
  | nil => intro x; exact ⟨by simp, le_refl x, by simp⟩
  | cons y ys ih =>
    intro x
    obtain ⟨hmem, hle, hall⟩ := ih (max x y)
    refine ⟨?_, ?_, ?_⟩
    · show ys.foldl max (max x y) ∈ x :: y :: ys
      rcases List.mem_cons.1 hmem with h | h
      · rcases max_choice x y with hm | hm <;> rw [h, hm] <;> simp
      · simp [List.mem_cons_of_mem, h]
    · exact le_trans (le_max_left x y) hle
    · intro z hz
      rcases List.mem_cons.1 hz with h | h
      · rw [h]
        exact le_trans (le_max_right x y) hle
      · exact hall z h

theorem listMin_spec (l : List Rat) (h : l ≠ []) :
    listMin l ∈ l ∧ ∀ x ∈ l, listMin l ≤ x := by
  cases l with
  | nil => exact absurd rfl h
  | cons x xs =>
    obtain ⟨hmem, hle, hall⟩ := foldl_min_spec xs x
    refine ⟨hmem, ?_⟩
    intro z hz
    rcases List.mem_cons.1 hz with hzx | hzs
    · rw [hzx]; exact hle
    · exact hall z hzs

theorem listMax_spec (l : List Rat) (h : l ≠ []) :
    listMax l ∈ l ∧ ∀ x ∈ l, x ≤ listMax l := by
  cases l with
  | nil => exact absurd rfl h
  | cons x xs =>
    obtain ⟨hmem, hle, hall⟩ := foldl_max_spec xs x
    refine ⟨hmem, ?_⟩
    intro z hz
    rcases List.mem_cons.1 hz with hzx | hzs
    · rw [hzx]; exact hle
    · exact hall z hzs

theorem applyCrop_true_eq (ctx : SpatialCtx) (margin : Rat)
    (hic : ctx.imagecol ≠ []) (hir : ctx.imagerow ≠ []) :
    applyCrop true ctx margin = .ok
      ⟨some (listMin ctx.imagecol - margin, listMax ctx.imagecol + margin),
       some (listMax ctx.imagerow + margin, listMin ctx.imagerow - margin)⟩ := by
  have h1 : ctx.imagecol.isEmpty = false := by
    cases hc : ctx.imagecol with
    | nil => exact absurd hc hic
    | cons a l => rfl
  have h2 : ctx.imagerow.isEmpty = false := by
    cases hc : ctx.imagerow with
    | nil => exact absurd hc hir
    | cons a l => rfl
  unfold applyCrop
  rw [if_pos rfl]
  unfold crop_image
  rw [if_neg (by simp [h1, h2])]
  rfl

theorem selectRows_spatial_sub (ad : AnnData) (pos : List Nat) :
    ∀ s ∈ (selectRows ad pos).spatial, s ∈ ad.spatial := by
  intro s hs
  rcases List.mem_filterMap.1 hs with ⟨i, _, hgi⟩
  exact List.get?_mem hgi

theorem SpatialBasePlot_init_query_sub (ad : AnnData) (ul : Option String)
    (lcs : Option (List String)) (b : BaseResult)
    (h : SpatialBasePlot_init ad ul lcs = .ok b) :
    ∀ s ∈ b.query.spatial, s ∈ ad.spatial := by
  have main : ∀ (lbl : String) (lcs2 : List String) (q : AnnData),
      select_clusters ad lbl lcs2 = .ok q → ∀ s ∈ q.spatial, s ∈ ad.spatial := by
    intro lbl lcs2 q hsel
    unfold select_clusters at hsel
    cases hcol : colOf ad lbl with
    | none => rw [hcol] at hsel; exact absurd hsel (by simp)
    | some col =>
      rw [hcol] at hsel
      replace hsel : (if lcs2.isEmpty = true then
          (Except.error "ValueError: expr cannot be empty" : Except String AnnData)
        else Except.ok (selectByNames ad (obsQuery ad.obs_names col.values lcs2))) =
          .ok q := hsel
      by_cases he : lcs2.isEmpty = true
      · rw [if_pos he] at hsel
        exact absurd hsel (by simp)
      · rw [if_neg he] at hsel
        injection hsel with h3
        rw [← h3]
        exact selectRows_spatial_sub ad _
  unfold SpatialBasePlot_init at h
  cases ul with
  | none =>
    cases lcs with
    | some l => exact absurd h (by simp)
    | none =>
      injection h with h2
      rw [← h2]
      intro s hs
      exact hs
  | some lbl =>
    cases lcs with
    | none =>
      replace h : (match colOf ad lbl with
        | none => (Except.error
            "AssertionError: Please choose the right label in adata.obs.columns!" :
            Except String BaseResult)
        | some col =>
          match get_query_clusters_index col.categories col.categories with
          | .error e => Except.error e
          | .ok qi =>
            match select_clusters ad lbl col.categories with
            | .error e => Except.error e
            | .ok q => Except.ok ⟨q, some lbl, some col.categories, qi⟩) = .ok b := h
      cases hcol : colOf ad lbl with
      | none => rw [hcol] at h; exact absurd h (by simp)
      | some col =>
        rw [hcol] at h
        replace h : (match get_query_clusters_index col.categories col.categories with
          | .error e => (Except.error e : Except String BaseResult)
          | .ok qi =>
            match select_clusters ad lbl col.categories with
            | .error e => Except.error e
            | .ok q => Except.ok ⟨q, some lbl, some col.categories, qi⟩) = .ok b := h
        cases hqi : get_query_clusters_index col.categories col.categories with
        | error e => rw [hqi] at h; exact absurd h (by simp)
        | ok qi =>
          rw [hqi] at h
          cases hsel : select_clusters ad lbl col.categories with
          | error e => rw [hsel] at h; exact absurd h (by simp)
          | ok q =>
            rw [hsel] at h
            injection h with h2
            rw [← h2]
            exact main lbl col.categories q hsel
    | some l =>
      replace h : (match colOf ad lbl with
        | none => (Except.error
            "AssertionError: Please choose the right label in adata.obs.columns!" :
            Except String BaseResult)
        | some col =>
          match get_query_clusters_index col.categories l with
          | .error e => Except.error e
          | .ok qi =>
            match select_clusters ad lbl l with
            | .error e => Except.error e
            | .ok q => Except.ok ⟨q, some lbl, some l, qi⟩) = .ok b := h
      cases hcol : colOf ad lbl with
      | none => rw [hcol] at h; exact absurd h (by simp)
      | some col =>
        rw [hcol] at h
        replace h : (match get_query_clusters_index col.categories l with
          | .error e => (Except.error e : Except String BaseResult)
          | .ok qi =>
            match select_clusters ad lbl l with
            | .error e => Except.error e
            | .ok q => Except.ok ⟨q, some lbl, some l, qi⟩) = .ok b := h
        cases hqi : get_query_clusters_index col.categories l with
        | error e => rw [hqi] at h; exact absurd h (by simp)
        | ok qi =>
          rw [hqi] at h
          cases hsel : select_clusters ad lbl l with
          | error e => rw [hsel] at h; exact absurd h (by simp)
          | ok q =>
            rw [hsel] at h
            injection h with h2
            rw [← h2]
            exact main lbl l q hsel

theorem mapOrErr_ok_mem {α β : Type} (f : α → Except String β) (l : List α)
    (ys : List β) (h : mapOrErr f l = .ok ys) : ∀ y ∈ ys, ∃ x ∈ l, f x = .ok y := by
  induction l generalizing ys with
  | nil =>
    injection h with h2
    rw [← h2]
    simp
  | cons x xs ih =>
    unfold mapOrErr at h
    cases hfx : f x with
    | error e => rw [hfx] at h; exact absurd h (by simp)
    | ok y0 =>
      rw [hfx] at h
      cases hrest : mapOrErr f xs with
      | error e => rw [hrest] at h; exact absurd h (by simp)
      | ok ys0 =>
        rw [hrest] at h
        injection h with h2
        rw [← h2]
        intro y hy
        rcases List.mem_cons.1 hy with hyy | hys
        · exact ⟨x, by simp, hyy ▸ hfx⟩
        · rcases ih ys0 hrest y hys with ⟨x2, hx2, hfx2⟩
          exact ⟨x2, by simp [hx2], hfx2⟩

theorem plot_clusters_points (q : AnnData) (lbl : String) (qi : List Nat) (cmap_n : Nat)
    (scale : Rat) (sc : List (String × List (Rat × Rat) × ColorArg))
    (h : plot_clusters q lbl qi cmap_n scale = .ok sc) :
    ∀ g ∈ sc, ∀ pt ∈ g.2.1, ∃ s ∈ q.spatial, pt = (s.1 * scale, s.2 * scale) := by
  unfold plot_clusters at h
  cases hcol : colOf q lbl with
  | none => rw [hcol] at h; exact absurd h (by simp)
  | some col =>
    rw [hcol] at h
    intro g hg pt hpt
    rcases mapOrErr_ok_mem _ _ _ h g hg with ⟨i, _, hfi⟩
    cases hqi : qi.get? i with
    | none => rw [hqi] at hfi; exact absurd hfi (by simp)
    | some k =>
      rw [hqi] at hfi
      cases hci : col.categories.get? i with
      | none => rw [hci] at hfi; exact absurd hfi (by simp)
      | some c =>
        rw [hci] at hfi
        injection hfi with h2
        rw [← h2] at hpt
        rcases List.mem_map.1 hpt with ⟨p0, hp0, hp0e⟩
        exact ⟨p0, mem_of_mem_maskFilter hp0, hp0e.symm⟩

/-! ### C1: effect of plot construction on the external AnnData -/

/-- C1 counterexample: constructing a `ClusterPlot` writes the cluster color
list into `uns[use_label + "_colors"]` of the external `AnnData`; the
construction succeeds and the external object afterwards differs from its
prior state, refuting "the AnnData is only read, never modified" for
`ClusterPlot`. -/
theorem C1_mutation_counterexample :
    clusterExtOf (ClusterPlot_init exAd exCtx (some "louvain") none 2 false false 100
      none 120) ≠ some exAd ∧
    clusterExtOf (ClusterPlot_init exAd exCtx (some "louvain") none 2 false false 100
      none 120) ≠ none := by
  exact ⟨by decide, by decide⟩

/-- C1 (amended): `GenePlot`, `SubClusterPlot`, `CciPlot` and a bare
`SpatialBasePlot` leave the external `AnnData` unchanged; `ClusterPlot`
changes exactly the `uns` entry `use_label ++ "_colors"` (observation
names, `obs` columns, variable names, `X`, `obsm` including the spatial
coordinates, and every other `uns` key are unchanged), storing a color per
full category. -/
theorem C1_external_frame (ad : AnnData) (ctx : SpatialCtx) (ul : Option String)
    (lcs : Option (List String)) (crop : Bool) (margin : Rat) (fname : Option String)
    (dpi : Nat) (genes : List String) (th : Option Rat) (method : String) (ct : Bool)
    (use_het : String) (cluster : Nat) (cmap_n : Nat) (slb : Bool) :
    allOk (fun r => r.ext = ad)
      (GenePlot_init ad ctx ul lcs crop margin fname dpi genes th method ct) ∧
    allOk (fun r => r.ext = ad)
      (CciPlot_init ad ctx ul lcs crop margin fname dpi use_het th) ∧
    allOk (fun r => r.ext = ad)
      (SubClusterPlot_init ad ctx ul lcs crop margin fname dpi cluster) ∧
    allOk (fun p => p.1 = ad) (SpatialBasePlot_full_init ad ul lcs fname dpi) ∧
    allOk (fun r => r.ext.obs_names = ad.obs_names ∧ r.ext.obs_cols = ad.obs_cols ∧
      r.ext.var_names = ad.var_names ∧ r.ext.X = ad.X ∧ r.ext.spatial = ad.spatial ∧
      r.ext.obsm = ad.obsm ∧
      ∀ lbl, ul = some lbl →
        (∀ k, k ≠ lbl ++ "_colors" → List.lookup k r.ext.uns = List.lookup k ad.uns) ∧
        ∃ cats, List.lookup (lbl ++ "_colors") r.ext.uns =
          some ((List.range cats).map (fun (i : Nat) => (i : Rat) / ((cmap_n : Rat) - 1))))
      (ClusterPlot_init ad ctx ul lcs cmap_n slb crop margin fname dpi) := by
  refine ⟨?_, ?_, ?_, ?_, ?_⟩
  · exact allOk_mono (fun r hr => hr.1) _
      (GenePlot_shape ad ctx ul lcs crop margin fname dpi genes th method ct)
  · exact allOk_mono (fun r hr => hr.1) _
      (CciPlot_shape ad ctx ul lcs crop margin fname dpi use_het th)
  · exact allOk_mono (fun r hr => hr.1) _
      (SubClusterPlot_shape ad ctx ul lcs crop margin fname dpi cluster)
  · exact allOk_mono (fun p hp => hp.1) _
      (SpatialBasePlot_full_shape ad ul lcs fname dpi)
  · refine allOk_mono ?_ _
      (ClusterPlot_shape ad ctx ul lcs cmap_n slb crop margin fname dpi)
    rintro r ⟨-, -, -, lbl, col, hul, -, hext, -⟩
    rw [hext]
    refine ⟨rfl, rfl, rfl, rfl, rfl, rfl, ?_⟩
    intro lbl2 hul2
    rw [hul] at hul2
    injection hul2 with hl2
    rw [← hl2]
    constructor
    · intro k hk
      show List.lookup k (setEntry ad.uns (lbl ++ "_colors") _) = List.lookup k ad.uns
      exact lookup_setEntry_ne ad.uns (lbl ++ "_colors") k _ hk
    · refine ⟨col.categories.length, ?_⟩
      show List.lookup (lbl ++ "_colors") (setEntry ad.uns (lbl ++ "_colors") _) = _
      rw [lookup_setEntry]

/-! ### C7: cropping -/

/-- C7 counterexample: a bare `SpatialBasePlot` constructed with
`crop = True` (its default) and margin 100 succeeds, yet its axes limits
are still unset — the x-limits are not
`(imagecol.min() - 100, imagecol.max() + 100)` — because the base
constructor never calls `_crop_image`, refuting the original claim for a
plot inside its quantifier. -/
theorem C7_base_crop_counterexample :
    baseAxOf (SpatialBasePlot_init_ax exAd none none true 100) = some freshAx ∧
    freshAx.xlim = none ∧
    (none : Option (Rat × Rat)) ≠
      some (listMin exCtx.imagecol - 100, listMax exCtx.imagecol + 100) := by
  exact ⟨rfl, rfl, by decide⟩

/-- C7 (amended): for `GenePlot`, `ClusterPlot`, `SubClusterPlot` and
`CciPlot`, with `crop = True` and margin `m` the x-limits after construction
are exactly `(imagecol.min() - m, imagecol.max() + m)` and the y-limits are
exactly `(imagerow.max() + m, imagerow.min() - m)` (the row axis inverted);
with `crop = False` the limits are never set.  A bare `SpatialBasePlot`
never crops: even with `crop = True` (its default) the limits stay unset —
the counterexample refutes the original claim there.  The
`listMin`/`listMax` conjuncts certify that these are the minimum and
maximum of the coordinate arrays. -/
theorem C7_crop_limits (ad : AnnData) (ctx : SpatialCtx) (ul : Option String)
    (lcs : Option (List String)) (margin : Rat) (fname : Option String) (dpi : Nat)
    (genes : List String) (th : Option Rat) (method : String) (ct : Bool)
    (use_het : String) (cluster : Nat) (cmap_n : Nat) (slb : Bool)
    (hic : ctx.imagecol ≠ []) (hir : ctx.imagerow ≠ []) :
    (listMin ctx.imagecol ∈ ctx.imagecol ∧ ∀ x ∈ ctx.imagecol, listMin ctx.imagecol ≤ x) ∧
    (listMax ctx.imagecol ∈ ctx.imagecol ∧ ∀ x ∈ ctx.imagecol, x ≤ listMax ctx.imagecol) ∧
    (listMin ctx.imagerow ∈ ctx.imagerow ∧ ∀ x ∈ ctx.imagerow, listMin ctx.imagerow ≤ x) ∧
    (listMax ctx.imagerow ∈ ctx.imagerow ∧ ∀ x ∈ ctx.imagerow, x ≤ listMax ctx.imagerow) ∧
    allOk (fun r => r.ax =
        ⟨some (listMin ctx.imagecol - margin, listMax ctx.imagecol + margin),
         some (listMax ctx.imagerow + margin, listMin ctx.imagerow - margin)⟩)
      (GenePlot_init ad ctx ul lcs true margin fname dpi genes th method ct) ∧
    allOk (fun r => r.ax = freshAx)
      (GenePlot_init ad ctx ul lcs false margin fname dpi genes th method ct) ∧
    allOk (fun r => r.ax =
        ⟨some (listMin ctx.imagecol - margin, listMax ctx.imagecol + margin),
         some (listMax ctx.imagerow + margin, listMin ctx.imagerow - margin)⟩)
      (ClusterPlot_init ad ctx ul lcs cmap_n slb true margin fname dpi) ∧
    allOk (fun r => r.ax = freshAx)
      (ClusterPlot_init ad ctx ul lcs cmap_n slb false margin fname dpi) ∧
    allOk (fun r => r.ax =
        ⟨some (listMin ctx.imagecol - margin, listMax ctx.imagecol + margin),
         some (listMax ctx.imagerow + margin, listMin ctx.imagerow - margin)⟩)
      (SubClusterPlot_init ad ctx ul lcs true margin fname dpi cluster) ∧
    allOk (fun r => r.ax = freshAx)
      (SubClusterPlot_init ad ctx ul lcs false margin fname dpi cluster) ∧
    allOk (fun r => r.ax =
        ⟨some (listMin ctx.imagecol - margin, listMax ctx.imagecol + margin),
         some (listMax ctx.imagerow + margin, listMin ctx.imagerow - margin)⟩)
      (CciPlot_init ad ctx ul lcs true margin fname dpi use_het th) ∧
    allOk (fun r => r.ax = freshAx)
      (CciPlot_init ad ctx ul lcs false margin fname dpi use_het th) ∧
    allOk (fun p => p.2 = freshAx) (SpatialBasePlot_init_ax ad ul lcs true margin) ∧
    allOk (fun p => p.2 = freshAx) (SpatialBasePlot_init_ax ad ul lcs false margin) := by
  have htrue := applyCrop_true_eq ctx margin hic hir
  have hfalse : applyCrop false ctx margin = .ok freshAx := rfl
  have hax : ∀ {r : AxState}, applyCrop true ctx margin = .ok r →
      r = ⟨some (listMin ctx.imagecol - margin, listMax ctx.imagecol + margin),
           some (listMax ctx.imagerow + margin, listMin ctx.imagerow - margin)⟩ := by
    intro r hr
    rw [htrue] at hr
    injection hr with h2
    exact h2.symm
  have haxf : ∀ {r : AxState}, applyCrop false ctx margin = .ok r → r = freshAx := by
    intro r hr
    rw [hfalse] at hr
    injection hr with h2
    exact h2.symm
  have hbase : ∀ (crop : Bool),
      allOk (fun p : BaseResult × AxState => p.2 = freshAx)
        (SpatialBasePlot_init_ax ad ul lcs crop margin) := by
    intro crop
    unfold SpatialBasePlot_init_ax
    cases SpatialBasePlot_init ad ul lcs with
    | error e => trivial
    | ok b => exact rfl
  refine ⟨listMin_spec ctx.imagecol hic, listMax_spec ctx.imagecol hic,
    listMin_spec ctx.imagerow hir, listMax_spec ctx.imagerow hir,
    ?_, ?_, ?_, ?_, ?_, ?_, ?_, ?_, hbase true, hbase false⟩
  · exact allOk_mono (fun r hr => hax hr.2.2.1) _
      (GenePlot_shape ad ctx ul lcs true margin fname dpi genes th method ct)
  · exact allOk_mono (fun r hr => haxf hr.2.2.1) _
      (GenePlot_shape ad ctx ul lcs false margin fname dpi genes th method ct)
  · exact allOk_mono (fun r hr => hax hr.2.1) _
      (ClusterPlot_shape ad ctx ul lcs cmap_n slb true margin fname dpi)
  · exact allOk_mono (fun r hr => haxf hr.2.1) _
      (ClusterPlot_shape ad ctx ul lcs cmap_n slb false margin fname dpi)
  · exact allOk_mono (fun r hr => hax hr.2.2.1) _
      (SubClusterPlot_shape ad ctx ul lcs true margin fname dpi cluster)
  · exact allOk_mono (fun r hr => haxf hr.2.2.1) _
      (SubClusterPlot_shape ad ctx ul lcs false margin fname dpi cluster)
  · exact allOk_mono (fun r hr => hax hr.2.2.1) _
      (CciPlot_shape ad ctx ul lcs true margin fname dpi use_het th)
  · exact allOk_mono (fun r hr => haxf hr.2.2.1) _
      (CciPlot_shape ad ctx ul lcs false margin fname dpi use_het th)

/-! ### C8: rendered positions -/

/-- C8: every plotted spot is rendered at its spatial coordinates multiplied
by the scale factor — the j-th gene-plot point (scatter and contour input
alike) is the j-th query spot's `obsm["spatial"]` pair times `scale_factor`,
and every cluster-scatter and subcluster-scatter point is some spot's
spatial pair times `scale_factor`. -/
theorem C8_scaled_positions (ad : AnnData) (ctx : SpatialCtx) (ul : Option String)
    (lcs : Option (List String)) (crop : Bool) (margin : Rat) (fname : Option String)
    (dpi : Nat) (genes : List String) (th : Option Rat) (method : String) (ct : Bool)
    (use_het : String) (cluster : Nat) (cmap_n : Nat) (slb : Bool) :
    allOk (fun r => ∀ j, j < r.points.length →
      ∃ s, r.base.query.spatial.get? j = some s ∧ s ∈ ad.spatial ∧
        r.points.get? j = some (s.1 * ctx.scale_factor, s.2 * ctx.scale_factor))
      (GenePlot_init ad ctx ul lcs crop margin fname dpi genes th method ct) ∧
    allOk (fun r => ∀ j, j < r.points.length →
      ∃ s, r.base.query.spatial.get? j = some s ∧ s ∈ ad.spatial ∧
        r.points.get? j = some (s.1 * ctx.scale_factor, s.2 * ctx.scale_factor))
      (CciPlot_init ad ctx ul lcs crop margin fname dpi use_het th) ∧
    allOk (fun r => ∀ g ∈ r.scatter, ∀ pt ∈ g.2.1, ∃ s ∈ ad.spatial,
      pt = (s.1 * ctx.scale_factor, s.2 * ctx.scale_factor))
      (ClusterPlot_init ad ctx ul lcs cmap_n slb crop margin fname dpi) ∧
    allOk (fun r => ∀ pt ∈ r.points, ∃ s ∈ ad.spatial,
      pt = (s.1 * ctx.scale_factor, s.2 * ctx.scale_factor))
      (SubClusterPlot_init ad ctx ul lcs crop margin fname dpi cluster) := by
  have hgene : ∀ (r : GeneResult),
      (SpatialBasePlot_init ad ul lcs = .ok r.base ∧
        r.points = scaledSpatial r.base.query ctx.scale_factor) →
      ∀ j, j < r.points.length →
        ∃ s, r.base.query.spatial.get? j = some s ∧ s ∈ ad.spatial ∧
          r.points.get? j = some (s.1 * ctx.scale_factor, s.2 * ctx.scale_factor) := by
    rintro r ⟨hb, hpts⟩ j hj
    rw [hpts] at hj ⊢
    unfold scaledSpatial at hj ⊢
    rw [List.length_map] at hj
    have hg : r.base.query.spatial.get? j = some (r.base.query.spatial.get ⟨j, hj⟩) :=
      List.get?_eq_get hj
    refine ⟨r.base.query.spatial.get ⟨j, hj⟩, hg, ?_, ?_⟩
    · exact SpatialBasePlot_init_query_sub ad ul lcs r.base hb _
        (r.base.query.spatial.get_mem j hj)
    · rw [List.get?_eq_getElem?, List.getElem?_map, ← List.get?_eq_getElem?, hg]
      rfl
  refine ⟨?_, ?_, ?_, ?_⟩
  · exact allOk_mono (fun r hr => hgene r ⟨hr.2.2.2.1, hr.2.2.2.2⟩) _
      (GenePlot_shape ad ctx ul lcs crop margin fname dpi genes th method ct)
  · exact allOk_mono (fun r hr => hgene r ⟨hr.2.2.2.1, hr.2.2.2.2⟩) _
      (CciPlot_shape ad ctx ul lcs crop margin fname dpi use_het th)
  · refine allOk_mono ?_ _
      (ClusterPlot_shape ad ctx ul lcs cmap_n slb crop margin fname dpi)
    rintro r ⟨-, -, hb, lbl, col, -, -, -, hpl⟩
    intro g hg pt hpt
    rcases plot_clusters_points r.base.query lbl r.base.query_indexes cmap_n
      ctx.scale_factor r.scatter hpl g hg pt hpt with ⟨s, hs, hse⟩
    exact ⟨s, SpatialBasePlot_init_query_sub ad ul lcs r.base hb s hs, hse⟩
  · refine allOk_mono ?_ _
      (SubClusterPlot_shape ad ctx ul lcs crop margin fname dpi cluster)
    rintro r ⟨-, -, -, -, lbl, col, -, -, hpts⟩
    intro pt hpt
    rw [hpts] at hpt
    unfold scaledSpatial at hpt
    rcases List.mem_map.1 hpt with ⟨s, hs, hse⟩
    refine ⟨s, ?_, hse.symm⟩
    exact selectRows_spatial_sub ad _ s hs

/-! ### C9: the only file write is the figure save -/

/-- C9 counterexample: a bare `SpatialBasePlot` constructed with
`fname = "plot.png"` succeeds yet performs no file write — the base
constructor stores `fname` but never calls `_save_output`, refuting the
"performed if and only if fname is not None" claim for `SpatialBasePlot`. -/
theorem C9_base_never_saves_counterexample :
    baseEffectsOf (SpatialBasePlot_full_init exAd none none (some "plot.png") 120) =
      some [] ∧ (some "plot.png" : Option String) ≠ none := by
  exact ⟨rfl, by decide⟩

/-- C9 (amended): for `GenePlot`, `ClusterPlot`, `SubClusterPlot` and
`CciPlot` the effect list is exactly the figure save — `[fileWrite fname
dpi]` when `fname` is given and `[]` when it is `None` — while a bare
`SpatialBasePlot` never writes a file even when `fname` is given. -/
theorem C9_save_iff_fname (ad : AnnData) (ctx : SpatialCtx) (ul : Option String)
    (lcs : Option (List String)) (crop : Bool) (margin : Rat) (fname : Option String)
    (dpi : Nat) (genes : List String) (th : Option Rat) (method : String) (ct : Bool)
    (use_het : String) (cluster : Nat) (cmap_n : Nat) (slb : Bool) :
    allOk (fun r => r.effects = saveEffects fname dpi ∧
        (∀ f, fname = some f → r.effects = [Effect.fileWrite f dpi]) ∧
        (fname = none → r.effects = []))
      (GenePlot_init ad ctx ul lcs crop margin fname dpi genes th method ct) ∧
    allOk (fun r => r.effects = saveEffects fname dpi ∧
        (∀ f, fname = some f → r.effects = [Effect.fileWrite f dpi]) ∧
        (fname = none → r.effects = []))
      (CciPlot_init ad ctx ul lcs crop margin fname dpi use_het th) ∧
    allOk (fun r => r.effects = saveEffects fname dpi ∧
        (∀ f, fname = some f → r.effects = [Effect.fileWrite f dpi]) ∧
        (fname = none → r.effects = []))
      (ClusterPlot_init ad ctx ul lcs cmap_n slb crop margin fname dpi) ∧
    allOk (fun r => r.effects = saveEffects fname dpi ∧
        (∀ f, fname = some f → r.effects = [Effect.fileWrite f dpi]) ∧
        (fname = none → r.effects = []))
      (SubClusterPlot_init ad ctx ul lcs crop margin fname dpi cluster) ∧
    allOk (fun p => p.2.2 = []) (SpatialBasePlot_full_init ad ul lcs fname dpi) := by
  have hsave : ∀ (eff : List Effect), eff = saveEffects fname dpi →
      eff = saveEffects fname dpi ∧
      (∀ f, fname = some f → eff = [Effect.fileWrite f dpi]) ∧
      (fname = none → eff = []) := by
    intro eff he
    refine ⟨he, ?_, ?_⟩
    · intro f hf
      rw [he, hf]
      rfl
    · intro hf
      rw [he, hf]
      rfl
  refine ⟨?_, ?_, ?_, ?_, ?_⟩
  · exact allOk_mono (fun r hr => hsave r.effects hr.2.1) _
      (GenePlot_shape ad ctx ul lcs crop margin fname dpi genes th method ct)
  · exact allOk_mono (fun r hr => hsave r.effects hr.2.1) _
      (CciPlot_shape ad ctx ul lcs crop margin fname dpi use_het th)
  · exact allOk_mono (fun r hr => hsave r.effects hr.1) _
      (ClusterPlot_shape ad ctx ul lcs cmap_n slb crop margin fname dpi)
  · exact allOk_mono (fun r hr => hsave r.effects hr.2.1) _
      (SubClusterPlot_shape ad ctx ul lcs crop margin fname dpi cluster)
  · exact allOk_mono (fun p hp => hp.2.1) _
      (SpatialBasePlot_full_shape ad ul lcs fname dpi)

/-! ### C10: the only network operation is the one-time download -/

/-- C10: no plotting constructor ever performs a network operation, and the
only network operation of the repository — the HTTP download inside
`example_bcba` — is skipped whenever the cache file exists; in particular it
is never executed again after a first call. -/
theorem C10_network_once (ad : AnnData) (ctx : SpatialCtx) (ul : Option String)
    (lcs : Option (List String)) (crop : Bool) (margin : Rat) (fname : Option String)
    (dpi : Nat) (genes : List String) (th : Option Rat) (method : String) (ct : Bool)
    (use_het : String) (cluster : Nat) (cmap_n : Nat) (slb : Bool)
    (remote : String) (fs : FileSys) :
    allOk (fun r => ∀ u, Effect.netDownload u ∉ r.effects)
      (GenePlot_init ad ctx ul lcs crop margin fname dpi genes th method ct) ∧
    allOk (fun r => ∀ u, Effect.netDownload u ∉ r.effects)
      (CciPlot_init ad ctx ul lcs crop margin fname dpi use_het th) ∧
    allOk (fun r => ∀ u, Effect.netDownload u ∉ r.effects)
      (ClusterPlot_init ad ctx ul lcs cmap_n slb crop margin fname dpi) ∧
    allOk (fun r => ∀ u, Effect.netDownload u ∉ r.effects)
      (SubClusterPlot_init ad ctx ul lcs crop margin fname dpi cluster) ∧
    allOk (fun p => ∀ u, Effect.netDownload u ∉ p.2.2)
      (SpatialBasePlot_full_init ad ul lcs fname dpi) ∧
    (∀ c, fs.cache = some c → (example_bcba remote fs).2.1 = []) ∧
    (example_bcba remote (example_bcba remote fs).1).2.1 = [] := by
  have hnet : ∀ (eff : List Effect), eff = saveEffects fname dpi →
      ∀ u, Effect.netDownload u ∉ eff := by
    intro eff he u
    rw [he]
    cases fname with
    | none => simp [saveEffects]
    | some f => simp [saveEffects]
  refine ⟨?_, ?_, ?_, ?_, ?_, ?_, ?_⟩
  · exact allOk_mono (fun r hr => hnet r.effects hr.2.1) _
      (GenePlot_shape ad ctx ul lcs crop margin fname dpi genes th method ct)
  · exact allOk_mono (fun r hr => hnet r.effects hr.2.1) _
      (CciPlot_shape ad ctx ul lcs crop margin fname dpi use_het th)
  · exact allOk_mono (fun r hr => hnet r.effects hr.1) _
      (ClusterPlot_shape ad ctx ul lcs cmap_n slb crop margin fname dpi)
  · exact allOk_mono (fun r hr => hnet r.effects hr.2.1) _
      (SubClusterPlot_shape ad ctx ul lcs crop margin fname dpi cluster)
  · refine allOk_mono ?_ _ (SpatialBasePlot_full_shape ad ul lcs fname dpi)
    rintro p ⟨-, he, -⟩ u
    rw [he]
    simp
  · intro c hc
    rcases fs with ⟨d, cc⟩
    cases cc with
    | none => simp at hc
    | some c2 => rfl
  · rcases fs with ⟨d, cc⟩
    cases cc <;> rfl

/-- Witness for C7 at a concrete input: the three-spot context `exCtx` with
margin 100. -/
theorem C7_crop_limits_witness :
    (listMin exCtx.imagecol ∈ exCtx.imagecol ∧
      ∀ x ∈ exCtx.imagecol, listMin exCtx.imagecol ≤ x) ∧
    (listMax exCtx.imagecol ∈ exCtx.imagecol ∧
      ∀ x ∈ exCtx.imagecol, x ≤ listMax exCtx.imagecol) ∧
    (listMin exCtx.imagerow ∈ exCtx.imagerow ∧
      ∀ x ∈ exCtx.imagerow, listMin exCtx.imagerow ≤ x) ∧
    (listMax exCtx.imagerow ∈ exCtx.imagerow ∧
      ∀ x ∈ exCtx.imagerow, x ≤ listMax exCtx.imagerow) ∧
    allOk (fun r => r.ax =
        ⟨some (listMin exCtx.imagecol - 100, listMax exCtx.imagecol + 100),
         some (listMax exCtx.imagerow + 100, listMin exCtx.imagerow - 100)⟩)
      (GenePlot_init exAd exCtx none none true 100 none 120 ["GA"] none "CumSum" false) ∧
    allOk (fun r => r.ax = freshAx)
      (GenePlot_init exAd exCtx none none false 100 none 120 ["GA"] none "CumSum" false) ∧
    allOk (fun r => r.ax =
        ⟨some (listMin exCtx.imagecol - 100, listMax exCtx.imagecol + 100),
         some (listMax exCtx.imagerow + 100, listMin exCtx.imagerow - 100)⟩)
      (ClusterPlot_init exAd exCtx none none 2 false true 100 none 120) ∧
    allOk (fun r => r.ax = freshAx)
      (ClusterPlot_init exAd exCtx none none 2 false false 100 none 120) ∧
    allOk (fun r => r.ax =
        ⟨some (listMin exCtx.imagecol - 100, listMax exCtx.imagecol + 100),
         some (listMax exCtx.imagerow + 100, listMin exCtx.imagerow - 100)⟩)
      (SubClusterPlot_init exAd exCtx none none true 100 none 120 0) ∧
    allOk (fun r => r.ax = freshAx)
      (SubClusterPlot_init exAd exCtx none none false 100 none 120 0) ∧
    allOk (fun r => r.ax =
        ⟨some (listMin exCtx.imagecol - 100, listMax exCtx.imagecol + 100),
         some (listMax exCtx.imagerow + 100, listMin exCtx.imagerow - 100)⟩)
      (CciPlot_init exAd exCtx none none true 100 none 120 "het" none) ∧
    allOk (fun r => r.ax = freshAx)
      (CciPlot_init exAd exCtx none none false 100 none 120 "het" none) ∧
    allOk (fun p => p.2 = freshAx) (SpatialBasePlot_init_ax exAd none none true 100) ∧
    allOk (fun p => p.2 = freshAx) (SpatialBasePlot_init_ax exAd none none false 100) :=
  C7_crop_limits exAd exCtx none none 100 none 120 ["GA"] none "CumSum" false "het" 0 2
    false (by decide) (by decide)
